import Mathlib

/-!
Shallow embedding of the ApiWomenSecurityApp route handlers (Express +
Firestore) and proofs about them.

Each route handler becomes a pure Lean function from its request, the
database state and the relevant environment inputs (generated document
ids, the geocoder response, the current timestamp, an optional injected
remote-call failure) to a result record carrying the HTTP status, the
response message, the database state after the request and any messages
sent through the messaging provider.

The document store is modelled as lists of (document id, document data)
pairs, one list per collection.  Request-body fields are modelled as
JavaScript values (`JsVal`) or `Option String` where only string inputs
matter; JavaScript truthiness is modelled explicitly.
-/

namespace WomenSecurity

/-- A JavaScript value as it can appear in a JSON request body field.
Numbers are modelled as integers (the handlers only test truthiness and
interpolate them into strings). -/
inductive JsVal where
  | undef
  | jsNull
  | num (n : Int)
  | str (s : String)
  deriving DecidableEq, Repr

/-- JavaScript truthiness, as used by the `!field` required-field checks in
the handlers: `undefined`, `null`, the number 0 and the empty string are
falsy. -/
def JsVal.truthy : JsVal → Bool
  | .undef => false
  | .jsNull => false
  | .num n => n != 0
  | .str s => s != ""

/-- Interpolation of a JavaScript value into a template literal. -/
def JsVal.interp : JsVal → String
  | .undef => "undefined"
  | .jsNull => "null"
  | .num n => toString n
  | .str s => s

/-- Truthiness of an optional string field (`undefined` or the empty
string are falsy). -/
def strTruthy : Option String → Bool
  | some s => s != ""
  | none => false

/-- JavaScript `a || b` on an optional string `a` with string default `b`. -/
def jsOrElse (a : Option String) (b : String) : String :=
  match a with
  | some s => if s != "" then s else b
  | none => b

/-! ## Document data, one structure per collection -/

/-- A document of the UBICACION collection (written by POST
guardar-ubicacion). -/
structure Ubicacion where
  id_ubicacion : String
  id_usuario : JsVal
  latitud : JsVal
  longitud : JsVal
  deriving DecidableEq, Repr

/-- A document of the ALERTA collection. -/
structure Alerta where
  id_alerta : String
  comuna : String
  direccion : String
  fecha : Nat
  id_gravedad : JsVal
  id_ubicacion : String
  id_usuario : JsVal
  mensaje : String
  deriving DecidableEq, Repr

/-- A document of the CONTACTO collection.  `celular` is optional because
the store is schemaless: a contact document may lack the field. -/
structure Contacto where
  id_contacto : String
  nombres : String
  apellidos : String
  celular : Option String
  email : String
  id_usuario : String
  deriving DecidableEq, Repr

/-- A document of the GRUPO collection. -/
structure Grupo where
  id_grupo : String
  nombre_grupo : String
  color_hex : String
  descripcion : Option String
  imagen_url : Option String
  estado : Bool
  id_usuario : String
  deriving DecidableEq, Repr

/-- A document of the GRUPO_PERSONA membership collection. -/
structure GrupoPersona where
  id_GrupoPersona : String
  id_grupo : String
  id_usuario : String
  deriving DecidableEq, Repr

/-- A document of the UBICACION_SELECCION collection (the
current-location-sharing selection for one person). -/
structure UbicacionSeleccion where
  id_persona : String
  id_grupo : Option String
  persona_buscar : Int
  grupo_buscar : Int
  todos : Int
  id_persona_buscar : Option String
  deriving DecidableEq, Repr

/-- A document of the CLAVE collection. -/
structure Clave where
  id_clave : String
  id_gravedad : String
  id_usuario : String
  palabra : String
  id_mensaje : String
  deriving DecidableEq, Repr

/-- A document of the MENSAJE collection. -/
structure Mensaje where
  id_mensaje : String
  id_persona : String
  mensaje : String
  deriving DecidableEq, Repr

/-- A document of the GRAVEDAD collection.  `estado` is written by POST
agregar-gravedad and PUT cambiar-estado-gravedad; it is optional because
the store is schemaless and other writers omit it. -/
structure Gravedad where
  id_gravedad : String
  descripcion : String
  estado : Option Bool
  deriving DecidableEq, Repr

/-- A document of the ALERTA_DERIVADA collection (written by POST
derivar-alerta). -/
structure AlertaDerivada where
  id_alerta : String
  id_alerta_derivada : String
  id_departamento : String
  id_funcionario : String
  deriving DecidableEq, Repr

/-- A document of the PERSONA collection, with the fields written by POST
register.  `imagen` is optional: register never writes it, while GET
obtener-ubicacion-seleccion reads it. -/
structure Persona where
  nombre : String
  apellido : String
  correo : String
  numero_telefono : Option String
  rut : Option String
  fecha_nacimiento : String
  direccion : String
  id_comuna : String
  id_genero : String
  id_persona : String
  id_municipalidad : Option String
  imagen : Option String
  deriving DecidableEq, Repr

/-- A document of the PERFIL collection, with the fields written by POST
register. -/
structure Perfil where
  correo : String
  password : String
  imagen_usuario : Option String
  tipo_usuario : Option String
  id_persona : String
  nombre_usuario : Option String
  estado : Bool
  deriving DecidableEq, Repr

/-- The Firestore database state: one list of (document id, data) pairs
per collection used by the modelled routes. -/
structure DB where
  ubicacion : List (String × Ubicacion)
  alerta : List (String × Alerta)
  alertaDerivada : List (String × AlertaDerivada)
  contacto : List (String × Contacto)
  grupo : List (String × Grupo)
  grupoPersona : List (String × GrupoPersona)
  ubicacionSeleccion : List (String × UbicacionSeleccion)
  clave : List (String × Clave)
  mensaje : List (String × Mensaje)
  gravedad : List (String × Gravedad)
  persona : List (String × Persona)
  perfil : List (String × Perfil)
  deriving DecidableEq, Repr

/-- The empty database. -/
def DB.empty : DB :=
  ⟨[], [], [], [], [], [], [], [], [], [], [], []⟩

/-- `collection(c).doc(id).get()`: the first document with the given id. -/
def lookupDoc {α : Type} (l : List (String × α)) (id : String) : Option α :=
  (l.find? (fun p => p.1 == id)).map (fun p => p.2)

/-- `doc(id).update(f)`: apply `f` to every document whose id matches. -/
def updateDoc {α : Type} (l : List (String × α)) (id : String) (f : α → α) :
    List (String × α) :=
  l.map (fun p => if p.1 == id then (p.1, f p.2) else p)

/-- `doc(id).delete()`: remove the document with the given id. -/
def deleteDoc {α : Type} (l : List (String × α)) (id : String) :
    List (String × α) :=
  l.filter (fun p => p.1 != id)

/-! ## Response model -/

/-- The `error` key of an error response body, as it reaches the client
after JSON serialization.  `msgText m` models a handler that serializes
`error.message`; `emptyObj` models a handler that passes the raw `Error`
instance to `res.json` — `JSON.stringify` of an `Error` yields the empty
object because `message` and `stack` are non-enumerable — and `absent`
models a body with no `error` key at all. -/
inductive ErrBody where
  | absent
  | msgText (m : String)
  | emptyObj
  deriving DecidableEq, Repr

/-- A WhatsApp message handed to the messaging provider. -/
structure WhatsAppMsg where
  toNumber : String
  body : String
  deriving DecidableEq, Repr

/-- One entry of the geocoder response `results` array: the `long_name`
of its `locality` address component (when one exists) and its
`formatted_address`. -/
structure GeoEntry where
  locality : Option String
  formatted_address : String
  deriving DecidableEq, Repr

/-- Result of a route handler: HTTP status, response message, the `error`
key of the body, and the database after the request. -/
structure HOut where
  status : Nat
  message : String
  errBody : ErrBody
  db : DB
  deriving DecidableEq, Repr

/-! ## POST /guardar-ubicacion  (src/routes/alerta.js, lines 85-178) -/

/-- Request body of POST guardar-ubicacion. -/
structure GuardarUbicacionReq where
  id_usuario : JsVal
  latitud : JsVal
  longitud : JsVal
  id_gravedad : JsVal
  mensaje : JsVal
  deriving DecidableEq, Repr

/-- Result of POST guardar-ubicacion: additionally the WhatsApp messages
sent to the contacts. -/
structure GuardarUbicacionOut where
  status : Nat
  message : String
  errBody : ErrBody
  db : DB
  sent : List WhatsAppMsg
  deriving DecidableEq, Repr

/-- The comuna extracted from the geocoder response, with its fallback. -/
def geoComuna (geo : List GeoEntry) : String :=
  let c := match geo.head? with
    | some g => g.locality.getD ""
    | none => ""
  if c == "" then "Comuna no disponible" else c

/-- The address extracted from the geocoder response, with its fallback. -/
def geoDireccion (geo : List GeoEntry) : String :=
  let d := match geo.head? with
    | some g => g.formatted_address
    | none => ""
  if d == "" then "Dirección no disponible" else d

/-- The composed alert text (`mensaje_nuevo` in the source). -/
def composedMensaje (mensaje direccion : String) (latitud longitud : JsVal) :
    String :=
  mensaje ++ ". Estimados, mi ubicación actual es " ++ direccion ++
    ", con latitud " ++ latitud.interp ++ " y longitud " ++ longitud.interp ++
    ". Solicito asistencia urgente o notificación a las autoridades competentes."

/-- POST guardar-ubicacion.  `geo` is the geocoder response, `now` the
current timestamp, `idUbicacion` and `idAlerta` the generated document
ids, and `err` an optional failure thrown by the first remote call inside
the try block (the catch block responds the same wherever the failure
strikes). -/
def guardarUbicacion (req : GuardarUbicacionReq) (db : DB)
    (geo : List GeoEntry) (now : Nat) (idUbicacion idAlerta : String)
    (err : Option String) : GuardarUbicacionOut :=
  if !(req.id_usuario.truthy && req.latitud.truthy && req.longitud.truthy
      && req.id_gravedad.truthy && req.mensaje.truthy) then
    { status := 400
      message := "Los campos id_usuario, latitud, longitud, id_gravedad y mensaje son obligatorios."
      errBody := .absent, db := db, sent := [] }
  else
    match err with
    | some m =>
        { status := 500, message := "Error al guardar la ubicación y alerta."
          errBody := .msgText m, db := db, sent := [] }
    | none =>
        let nuevaUbicacion : Ubicacion :=
          ⟨idUbicacion, req.id_usuario, req.latitud, req.longitud⟩
        let db1 := { db with ubicacion := db.ubicacion ++ [(idUbicacion, nuevaUbicacion)] }
        let comuna := geoComuna geo
        let direccion := geoDireccion geo
        let mensajeNuevo := composedMensaje req.mensaje.interp direccion req.latitud req.longitud
        let nuevaAlerta : Alerta :=
          ⟨idAlerta, comuna, direccion, now, req.id_gravedad, idUbicacion,
            req.id_usuario, mensajeNuevo⟩
        let db2 := { db1 with alerta := db1.alerta ++ [(idAlerta, nuevaAlerta)] }
        let contactos := db.contacto.filter
          (fun p => JsVal.str p.2.id_usuario == req.id_usuario)
        let sent := (contactos.filter (fun p => strTruthy p.2.celular)).map
          (fun p =>
            { toNumber := "whatsapp:+56" ++ p.2.celular.getD ""
              body := mensajeNuevo })
        { status := 200
          message := "Ubicación y alerta guardadas exitosamente. Mensajes de WhatsApp enviados a los contactos."
          errBody := .absent, db := db2, sent := sent }

/-! ## POST /guardar-contacto  (src/routes/alerta.js, lines 306-342) -/

/-- Request body of POST guardar-contacto. -/
structure GuardarContactoReq where
  nombres : Option String
  apellidos : Option String
  celular : Option String
  email : Option String
  id_usuario : Option String
  deriving DecidableEq, Repr

/-- POST guardar-contacto.  `idContacto` is the generated document id and
`err` an optional failure thrown inside the try block; its catch passes
the raw `Error` object to `res.json`, so the serialized `error` key is an
empty object. -/
def guardarContacto (req : GuardarContactoReq) (db : DB) (idContacto : String)
    (err : Option String) : HOut :=
  if !(strTruthy req.nombres && strTruthy req.apellidos && strTruthy req.celular
      && strTruthy req.email && strTruthy req.id_usuario) then
    { status := 400, message := "Todos los campos son obligatorios"
      errBody := .absent, db := db }
  else
    match err with
    | some _ =>
        { status := 500, message := "Error al agregar el contacto"
          errBody := .emptyObj, db := db }
    | none =>
        let nuevoContacto : Contacto :=
          ⟨idContacto, req.nombres.getD "", req.apellidos.getD "", req.celular,
            req.email.getD "", req.id_usuario.getD ""⟩
        { status := 201, message := "Contacto agregado exitosamente"
          errBody := .absent
          db := { db with contacto := db.contacto ++ [(idContacto, nuevoContacto)] } }

/-! ## DELETE /borrar-contacto  (src/routes/alerta.js, lines 439-461) -/

/-- DELETE borrar-contacto. -/
def borrarContacto (id_contacto : Option String) (db : DB)
    (err : Option String) : HOut :=
  if !strTruthy id_contacto then
    { status := 400, message := "El id_contacto es requerido"
      errBody := .absent, db := db }
  else
    match err with
    | some _ =>
        { status := 500, message := "Error al eliminar el contacto"
          errBody := .emptyObj, db := db }
    | none =>
        let idc := id_contacto.getD ""
        match lookupDoc db.contacto idc with
        | none =>
            { status := 404
              message := "No se encontró el contacto con id: " ++ idc
              errBody := .absent, db := db }
        | some _ =>
            { status := 200, message := "Contacto eliminado exitosamente"
              errBody := .absent
              db := { db with contacto := deleteDoc db.contacto idc } }

/-! ## POST /crear-grupo  (src/routes/usuario/grupo.js, lines 64-118) -/

/-- An uploaded multipart file (only the original name matters to the
modelled behaviour: it determines the extension of the stored object). -/
structure FileUpload where
  originalname : String
  deriving DecidableEq, Repr

/-- Model of node `path.extname`: the final extension of a file name,
including the dot, or the empty string when the name has no dot. -/
def extnameOf (s : String) : String :=
  let parts := s.splitOn "."
  if parts.length ≤ 1 then "" else "." ++ parts.getLastD ""

/-- The public URL of an object stored under `grupos/` in the bucket. -/
def grupoImageUrl (bucketName idGrupo : String) (now : Nat) (ext : String) :
    String :=
  "https://storage.googleapis.com/" ++ bucketName ++ "/grupos/" ++ idGrupo ++
    "_" ++ toString now ++ ext

/-- Request body of POST crear-grupo. -/
structure CrearGrupoReq where
  nombre_grupo : Option String
  id_usuario_creador : Option String
  color_hex : Option String
  descripcion : Option String
  file : Option FileUpload
  deriving DecidableEq, Repr

/-- POST crear-grupo: creates the GRUPO document (with an optional
uploaded image) and a GRUPO_PERSONA membership for the creator.  Its
catch passes the raw `Error` object to `res.json`. -/
def crearGrupo (req : CrearGrupoReq) (db : DB) (bucketName : String)
    (now : Nat) (idGrupo idGrupoPersona : String) (err : Option String) :
    HOut :=
  if !(strTruthy req.nombre_grupo && strTruthy req.id_usuario_creador
      && strTruthy req.color_hex) then
    { status := 400
      message := "Los campos nombre_grupo, id_usuario_creador y color_hex son requeridos"
      errBody := .absent, db := db }
  else
    match err with
    | some _ =>
        { status := 500
          message := "Error al crear el grupo o al agregar al usuario"
          errBody := .emptyObj, db := db }
    | none =>
        match req.descripcion with
        | none =>
            -- descripcion is not validated: when the field is absent the
            -- document passed to set() carries an undefined value, which the
            -- Firestore client rejects (ignoreUndefinedProperties is not
            -- enabled), landing in the catch block with no write
            { status := 500
              message := "Error al crear el grupo o al agregar al usuario"
              errBody := .emptyObj, db := db }
        | some descripcion =>
            let imagen_url := req.file.map
              (fun f => grupoImageUrl bucketName idGrupo now (extnameOf f.originalname))
            let nuevoGrupo : Grupo :=
              ⟨idGrupo, req.nombre_grupo.getD "", req.color_hex.getD "",
                some descripcion, imagen_url, true, req.id_usuario_creador.getD ""⟩
            let grupoPersona : GrupoPersona :=
              ⟨idGrupoPersona, idGrupo, req.id_usuario_creador.getD ""⟩
            { status := 201
              message := "Grupo creado exitosamente y usuario agregado al grupo"
              errBody := .absent
              db := { db with
                        grupo := db.grupo ++ [(idGrupo, nuevoGrupo)]
                        grupoPersona := db.grupoPersona ++ [(idGrupoPersona, grupoPersona)] } }

/-! ## DELETE /eliminar-grupo  (src/routes/usuario/grupo.js, lines 150-194) -/

/-- DELETE eliminar-grupo: soft-deletes the group by setting `estado` to
false and clears the group reference from every UBICACION_SELECCION
document that pointed at it. -/
def eliminarGrupo (id_grupo : Option String) (db : DB) (err : Option String) :
    HOut :=
  if !strTruthy id_grupo then
    { status := 400, message := "El campo id_grupo es requerido"
      errBody := .absent, db := db }
  else
    match err with
    | some m =>
        { status := 500, message := "Error al eliminar el grupo"
          errBody := .msgText m, db := db }
    | none =>
        let g := id_grupo.getD ""
        match lookupDoc db.grupo g with
        | none =>
            { status := 200
              message := "No se encontró el grupo con id: " ++ g
              errBody := .absent, db := db }
        | some _ =>
            let db1 := { db with
              grupo := updateDoc db.grupo g (fun gr => { gr with estado := false }) }
            let db2 := { db1 with
              ubicacionSeleccion := db1.ubicacionSeleccion.map (fun p =>
                if p.2.id_grupo == some g then
                  (p.1, { p.2 with id_grupo := none, grupo_buscar := 0 })
                else p) }
            { status := 200
              message := "Grupo eliminado exitosamente (estado cambiado a false) y ubicaciones seleccionadas actualizadas."
              errBody := .absent, db := db2 }

/-! ## PUT /editar-grupo  (src/routes/usuario/grupo.js, lines 239-280) -/

/-- Request of PUT editar-grupo. -/
structure EditarGrupoReq where
  id_grupo : Option String
  nombre_grupo : Option String
  color_hex : Option String
  descripcion : Option String
  file : Option FileUpload
  deriving DecidableEq, Repr

/-- The `grupo` object in the response of PUT editar-grupo:
`id_grupo` spread with `updateData`, whose `imagen_url` key exists only
when a file was uploaded. -/
structure GrupoResp where
  id_grupo : String
  nombre_grupo : String
  color_hex : String
  descripcion : String
  imagen_url : Option String
  deriving DecidableEq, Repr

/-- Result of PUT editar-grupo. -/
structure EditarGrupoOut where
  status : Nat
  message : String
  errBody : ErrBody
  db : DB
  grupoResp : Option GrupoResp
  deriving DecidableEq, Repr

/-- PUT editar-grupo: updates only `nombre_grupo`, `color_hex` and
`descripcion` in the stored document; the image (when a file is present)
is uploaded *after* the database update and its URL is added only to the
local `updateData` object echoed in the response. -/
def editarGrupo (req : EditarGrupoReq) (db : DB) (bucketName : String)
    (now : Nat) (err : Option String) : EditarGrupoOut :=
  if !(strTruthy req.id_grupo && strTruthy req.nombre_grupo
      && strTruthy req.color_hex && strTruthy req.descripcion) then
    { status := 400
      message := "Los campos id_grupo, nombre_grupo, color_hex y descripcion son obligatorios."
      errBody := .absent, db := db, grupoResp := none }
  else
    match err with
    | some _ =>
        { status := 500, message := "Error al actualizar el grupo"
          errBody := .emptyObj, db := db, grupoResp := none }
    | none =>
        let g := req.id_grupo.getD ""
        match lookupDoc db.grupo g with
        | none =>
            { status := 200
              message := "No se encontró el grupo con id: " ++ g
              errBody := .absent, db := db, grupoResp := none }
        | some _ =>
            let n := req.nombre_grupo.getD ""
            let c := req.color_hex.getD ""
            let d := req.descripcion.getD ""
            let db1 := { db with
              grupo := updateDoc db.grupo g (fun gr =>
                { gr with nombre_grupo := n, color_hex := c, descripcion := some d }) }
            let respImagen := req.file.map
              (fun f => grupoImageUrl bucketName g now (extnameOf f.originalname))
            { status := 200, message := "Grupo actualizado exitosamente."
              errBody := .absent, db := db1
              grupoResp := some ⟨g, n, c, d, respImagen⟩ }

/-! ## POST /actualizar-ubicacion-seleccion
    (src/routes/usuario/ubicacion_actual.js, lines 472-541) -/

/-- Request body of POST actualizar-ubicacion-seleccion.  `tipo` is a
JavaScript value: the handler first tests `tipo === undefined` and then
`[1, 2, 3].includes(tipo)` (strict equality).  `id_grupo` distinguishes
the three body states the handler propagates into the written document:
`none` when the field is absent (JS undefined), `some none` when it is
null, and `some (some s)` when it is the string `s`. -/
structure ActualizarSelReq where
  id_persona : Option String
  tipo : JsVal
  id_grupo : Option (Option String)
  id_persona_buscar : Option String
  deriving DecidableEq, Repr

/-- Result of POST actualizar-ubicacion-seleccion; `written` is the
`ubicacionSeleccionData` object written to the store (`none` when no
write occurred). -/
structure ActualizarSelOut where
  status : Nat
  message : String
  errBody : ErrBody
  db : DB
  written : Option UbicacionSeleccion
  deriving DecidableEq, Repr

/-- The final step of POST actualizar-ubicacion-seleccion: update the
first UBICACION_SELECCION document of the person when one exists,
otherwise create one; also returns the success message. -/
def upsertSeleccion (db : DB) (idp newDocId : String)
    (data : UbicacionSeleccion) : DB × String :=
  match db.ubicacionSeleccion.find? (fun q => q.2.id_persona == idp) with
  | some existing =>
      ({ db with ubicacionSeleccion :=
           updateDoc db.ubicacionSeleccion existing.1 (fun _ => data) },
       "Ubicación seleccionada actualizada exitosamente.")
  | none =>
      ({ db with ubicacionSeleccion := db.ubicacionSeleccion ++ [(newDocId, data)] },
       "Ubicación seleccionada creada exitosamente.")

/-- POST actualizar-ubicacion-seleccion.  `newDocId` is the document id
generated when no UBICACION_SELECCION document for the person exists
yet.  The `default` arm of the source's switch is unreachable (the
`includes` check already rejected every `tipo` outside 1..3).

The ubicacionSeleccionData object initializes `id_grupo` to null and, for
tipo 2, overwrites it with the raw request value — which is undefined
when the body has no id_grupo.  The Firestore client rejects undefined
field values (ignoreUndefinedProperties is not enabled), so both
`update()` and `add()` then throw into the catch block: such a request is
answered 500 and nothing is written.  `grupoSlot` models the value put
into that field: `none` is undefined, `some g` a defined value (null or a
string). -/
def actualizarUbicacionSeleccion (req : ActualizarSelReq) (db : DB)
    (newDocId : String) (err : Option String) : ActualizarSelOut :=
  if !strTruthy req.id_persona || req.tipo == JsVal.undef then
    { status := 400, message := "Los campos id_persona y tipo son obligatorios."
      errBody := .absent, db := db, written := none }
  else if !(req.tipo == JsVal.num 1 || req.tipo == JsVal.num 2
      || req.tipo == JsVal.num 3) then
    { status := 400
      message := "El campo tipo debe ser 1 (persona), 2 (grupo), o 3 (todos)."
      errBody := .absent, db := db, written := none }
  else
    let idp := req.id_persona.getD ""
    let grupoSlot : Option (Option String) :=
      if req.tipo == JsVal.num 2 then req.id_grupo else some none
    let base : UbicacionSeleccion := ⟨idp, none, 0, 0, 0, none⟩
    let data0 :=
      if req.tipo == JsVal.num 1 then
        { base with persona_buscar := 1
                    id_persona_buscar := some (jsOrElse req.id_persona_buscar idp) }
      else if req.tipo == JsVal.num 2 then
        { base with grupo_buscar := 1 }
      else
        { base with todos := 1 }
    match err with
    | some m =>
        { status := 500
          message := "Error al actualizar o crear el registro de ubicación seleccionada."
          errBody := .msgText m, db := db, written := none }
    | none =>
        match grupoSlot with
        | none =>
            { status := 500
              message := "Error al actualizar o crear el registro de ubicación seleccionada."
              errBody := .msgText "Cannot use undefined as a Firestore value."
              db := db, written := none }
        | some gslot =>
            let data := { data0 with id_grupo := gslot }
            let r := upsertSeleccion db idp newDocId data
            { status := 200, message := r.2, errBody := .absent, db := r.1
              written := some data }

/-! ## GET /obtener-ubicacion-seleccion
    (src/routes/usuario/ubicacion_actual.js, lines 650-757) -/

/-- Loose JavaScript equality `v == 1` for a query-string parameter
(query values are strings when present; `"1" == 1` holds).  The model
recognizes the canonical spelling "1"; other loosely-equal spellings
(such as "01") select the same branch of the handler in JS, so no proved
statement depends on them. -/
def jsLooseEqOne : Option String → Bool
  | some s => s == "1"
  | none => false

/-- Query of GET obtener-ubicacion-seleccion. -/
structure ObtenerSelReq where
  id_persona : Option String
  persona_buscar : Option String
  grupo_buscar : Option String
  todos : Option String
  id_persona_buscar : Option String
  id_grupo : Option String
  deriving DecidableEq, Repr

/-- A member entry in the response of GET obtener-ubicacion-seleccion. -/
structure MiembroSel where
  id_persona : String
  nombre : String
  apellido : String
  rut : Option String
  imagen : Option String
  deriving DecidableEq, Repr

/-- Result of GET obtener-ubicacion-seleccion.  `tipoActual` mirrors the
source's `tipoActual` variable: the empty string initially, a number once
a search flag is recognized. -/
structure ObtenerSelOut where
  status : Nat
  message : String
  errBody : ErrBody
  db : DB
  tipoActual : JsVal
  miembros : List MiembroSel
  deriving DecidableEq, Repr

/-- Append a member id unless already collected (the JS `Set` keeps one
copy per id, in insertion order). -/
def insertUnique (l : List String) (x : String) : List String :=
  if l.contains x then l else l ++ [x]

/-- Collect the member ids of all the given groups into a `Set`. -/
def collectMiembros (db : DB) (idGrupos : List String) : List String :=
  idGrupos.foldl (fun acc g =>
    (db.grupoPersona.filter (fun p => p.2.id_grupo == g)).foldl
      (fun a q => insertUnique a q.2.id_usuario) acc) []

/-- Fetch the PERSONA details of the selected ids, skipping ids whose
PERSONA document does not exist.  (The source also fetches the PERFIL
document of each member but never uses it in the response.) -/
def miembrosOf (db : DB) (ids : List String) : List MiembroSel :=
  ids.filterMap (fun u =>
    (lookupDoc db.persona u).map (fun pd =>
      ⟨u, pd.nombre, pd.apellido, pd.rut, pd.imagen⟩))

/-- GET obtener-ubicacion-seleccion. -/
def obtenerUbicacionSeleccion (q : ObtenerSelReq) (db : DB)
    (err : Option String) : ObtenerSelOut :=
  if !strTruthy q.id_persona then
    { status := 400, message := "El parámetro id_persona es obligatorio."
      errBody := .absent, db := db, tipoActual := .str "", miembros := [] }
  else
    match err with
    | some m =>
        { status := 500
          message := "Errr al obtener los miembros de ubicación seleccionada."
          errBody := .msgText m, db := db, tipoActual := .str "", miembros := [] }
    | none =>
        let idp := q.id_persona.getD ""
        if jsLooseEqOne q.persona_buscar then
          if !strTruthy q.id_persona_buscar then
            { status := 200
              message := "El parámetro id_persona_buscar es obligatorio cuando persona_buscar está activo."
              errBody := .absent, db := db, tipoActual := .num 1, miembros := [] }
          else
            { status := 200, message := "Miembros obtenidos exitosamente."
              errBody := .absent, db := db, tipoActual := .num 1
              miembros := miembrosOf db [q.id_persona_buscar.getD ""] }
        else if jsLooseEqOne q.grupo_buscar then
          if !strTruthy q.id_grupo then
            { status := 200
              message := "El parámetro id_grupo es obligatorio cuando grupo_buscar está activo."
              errBody := .absent, db := db, tipoActual := .num 2, miembros := [] }
          else
            let g := q.id_grupo.getD ""
            let gp := db.grupoPersona.filter (fun p => p.2.id_grupo == g)
            if gp.isEmpty then
              { status := 200
                message := "El grupo con id " ++ g ++ " no tiene miembros."
                errBody := .absent, db := db, tipoActual := .num 2, miembros := [] }
            else
              let ids := (gp.map (fun p => p.2.id_usuario)).filter (fun u => u != idp)
              { status := 200, message := "Miembros obtenidos exitosamente."
                errBody := .absent, db := db, tipoActual := .num 2
                miembros := miembrosOf db ids }
        else if jsLooseEqOne q.todos then
          let propios := db.grupoPersona.filter (fun p => p.2.id_usuario == idp)
          if propios.isEmpty then
            { status := 200
              message := "El usuario con id " ++ idp ++ " no pertenece a ningún grupo."
              errBody := .absent, db := db, tipoActual := .num 3, miembros := [] }
          else
            let idGrupos := propios.map (fun p => p.2.id_grupo)
            let ids := (collectMiembros db idGrupos).filter (fun u => u != idp)
            { status := 200, message := "Miembros obtenidos exitosamente."
              errBody := .absent, db := db, tipoActual := .num 3
              miembros := miembrosOf db ids }
        else
          { status := 200, message := "Miembros obtenidos exitosamente."
            errBody := .absent, db := db, tipoActual := .str "", miembros := [] }

/-! ## GET /obtener-claves-usuario
    (src/routes/gestionar_claves.js, lines 109-164) -/

/-- One entry of the GET obtener-claves-usuario response: the clave with
its denormalized message text and severity description. -/
structure ClaveDetalle where
  id_clave : String
  palabra : String
  mensaje : String
  gravedad : String
  deriving DecidableEq, Repr

/-- Result of GET obtener-claves-usuario. -/
structure ObtenerClavesOut where
  status : Nat
  message : String
  errBody : ErrBody
  db : DB
  claves : List ClaveDetalle
  deriving DecidableEq, Repr

/-- The response entry assembled for one CLAVE document: its palabra, the
text of the referenced MENSAJE document and the description of the
referenced GRAVEDAD document, with literal fallbacks for dangling
references. -/
def claveDetalleOf (db : DB) (c : Clave) : ClaveDetalle :=
  { id_clave := c.id_clave
    palabra := c.palabra
    mensaje := match lookupDoc db.mensaje c.id_mensaje with
      | some md => md.mensaje
      | none => "Mensaje no encontrado"
    gravedad := match lookupDoc db.gravedad c.id_gravedad with
      | some gd => gd.descripcion
      | none => "Gravedad no encontrada" }

/-- GET obtener-claves-usuario. -/
def obtenerClavesUsuario (id_usuario : Option String) (db : DB)
    (err : Option String) : ObtenerClavesOut :=
  if !strTruthy id_usuario then
    { status := 400, message := "El parámetro id_usuario es obligatorio."
      errBody := .absent, db := db, claves := [] }
  else
    match err with
    | some m =>
        { status := 500, message := "Error al obtener las claves del usuario."
          errBody := .msgText m, db := db, claves := [] }
    | none =>
        let uid := id_usuario.getD ""
        let cs := db.clave.filter (fun p => p.2.id_usuario == uid)
        if cs.isEmpty then
          { status := 404
            message := "No se encontraron claves para el usuario proporcionado."
            errBody := .absent, db := db, claves := [] }
        else
          { status := 200, message := ""
            errBody := .absent, db := db
            claves := cs.map (fun p => claveDetalleOf db p.2) }

/-! ## PUT /editar-clave  (src/routes/gestionar_claves.js, lines 294-329) -/

/-- A document path argument as the Firestore client accepts it:
`doc(undefined)` and `doc(empty string)` throw synchronously (invalid
resource path), which inside the try block lands in the catch. -/
def validDocPath : Option String → Option String
  | some s => if s == "" then none else some s
  | none => none

/-- Request body of PUT editar-clave. -/
structure EditarClaveReq where
  id_clave : Option String
  id_gravedad : Option String
  id_mensaje : Option String
  palabra : Option String
  deriving DecidableEq, Repr

/-- PUT editar-clave.  The handler performs no required-field validation:
it calls `collection(CLAVE).doc(id_clave)` directly, so a missing
`id_clave` throws inside the try block and the response is the catch
block's 500, not a 400. -/
def editarClave (req : EditarClaveReq) (db : DB) (err : Option String) :
    HOut :=
  match validDocPath req.id_clave with
  | none =>
      { status := 500, message := "Error al actualizar la clave."
        errBody := .msgText "Value for argument documentPath is not a valid resource path."
        db := db }
  | some idc =>
      match err with
      | some m =>
          { status := 500, message := "Error al actualizar la clave."
            errBody := .msgText m, db := db }
      | none =>
          match lookupDoc db.clave idc with
          | none =>
              { status := 404, message := "Clave no encontrada."
                errBody := .absent, db := db }
          | some c =>
              if !(strTruthy req.id_gravedad || strTruthy req.id_mensaje
                  || strTruthy req.palabra) then
                -- no truthy field: actualizaciones is the empty object and
                -- the Firestore client rejects update() with no fields,
                -- landing in the catch block with no write
                { status := 500, message := "Error al actualizar la clave."
                  errBody := .msgText "At least one field must be updated."
                  db := db }
              else
                let c1 := if strTruthy req.id_gravedad then
                    { c with id_gravedad := req.id_gravedad.getD "" } else c
                let c2 := if strTruthy req.id_mensaje then
                    { c1 with id_mensaje := req.id_mensaje.getD "" } else c1
                let c3 := if strTruthy req.palabra then
                    { c2 with palabra := req.palabra.getD "" } else c2
                { status := 200, message := "Clave actualizada exitosamente."
                  errBody := .absent
                  db := { db with clave := updateDoc db.clave idc (fun _ => c3) } }

/-! ## DELETE /eliminar-mensaje
    (src/routes/gestionar_claves.js, lines 594-656) -/

/-- DELETE eliminar-mensaje: refuses to delete the only message of a
person; otherwise redirects every CLAVE referencing the message to the
first other MENSAJE document of the same person, then deletes it. -/
def eliminarMensaje (id_mensaje : Option String) (db : DB)
    (err : Option String) : HOut :=
  match validDocPath id_mensaje with
  | none =>
      { status := 500, message := "Error al eliminar el mensaje."
        errBody := .msgText "Value for argument documentPath is not a valid resource path."
        db := db }
  | some mid =>
      match err with
      | some m =>
          { status := 500, message := "Error al eliminar el mensaje."
            errBody := .msgText m, db := db }
      | none =>
          match lookupDoc db.mensaje mid with
          | none =>
              { status := 404, message := "Mensaje no encontrado."
                errBody := .absent, db := db }
          | some md =>
              let otros := db.mensaje.filter
                (fun p => p.2.id_persona == md.id_persona && p.1 != mid)
              match otros.head? with
              | none =>
                  { status := 400
                    message := "El usuario solo tiene este mensaje, no se puede eliminar."
                    errBody := .absent, db := db }
              | some repl =>
                  let claves1 := db.clave.map (fun (p : String × Clave) =>
                    if p.2.id_mensaje == mid then
                      (p.1, { p.2 with id_mensaje := repl.1 })
                    else p)
                  let db1 := { db with clave := claves1 }
                  let db2 := { db1 with mensaje := deleteDoc db1.mensaje mid }
                  { status := 200
                    message := "Mensaje eliminado exitosamente y claves reasignadas a otro mensaje del usuario."
                    errBody := .absent, db := db2 }

/-! ## POST /register  (src/routes/usuario/login.js, lines 89-200) -/

/-- `field || null` on an optional string body field. -/
def jsOrNull (a : Option String) : Option String :=
  match a with
  | some s => if s != "" then some s else none
  | none => none

/-- `collection(c).doc(id).set(v)`: overwrite the document with the given
id, creating it when absent. -/
def setDoc {α : Type} (l : List (String × α)) (id : String) (v : α) :
    List (String × α) :=
  (l.filter (fun p => p.1 != id)) ++ [(id, v)]

/-- Request body of POST register. -/
structure RegisterReq where
  nombre : Option String
  apellido : Option String
  correo : Option String
  password : Option String
  fecha_nacimiento : Option String
  numero_telefono : Option String
  rut : Option String
  direccion : Option String
  id_comuna : Option String
  tipo_usuario : JsVal
  id_genero : Option String
  id_municipalidad : Option String
  deriving DecidableEq, Repr

/-- POST register.  `uid` is the id of the account created by the
authentication service and `idMensaje` the generated MENSAJE id.
`authErr` injects a failure of the `createUser` call (its dedicated catch
responds with status 200); `dbErr` injects a failure of the second try
block (its catch responds with status 500). -/
def registerUsuario (req : RegisterReq) (db : DB) (uid idMensaje : String)
    (authErr dbErr : Option String) : HOut :=
  if !(strTruthy req.nombre && strTruthy req.apellido && strTruthy req.correo
      && strTruthy req.password && strTruthy req.fecha_nacimiento
      && strTruthy req.direccion && strTruthy req.id_comuna
      && strTruthy req.id_genero) then
    { status := 400
      message := "Los campos nombre, apellido, correo, password, fecha_nacimiento, direccion, id_comuna e id_genero son obligatorios."
      errBody := .absent, db := db }
  else
    match authErr with
    | some m =>
        { status := 200, message := "Error al registrar : Correo duplicado"
          errBody := .msgText m, db := db }
    | none =>
        match dbErr with
        | some m =>
            { status := 500
              message := "Error al registrar el usuario, fallo del sistema, contactar con soporte técnico"
              errBody := .msgText m, db := db }
        | none =>
            let persona : Persona :=
              ⟨req.nombre.getD "", req.apellido.getD "", req.correo.getD "",
                jsOrNull req.numero_telefono, jsOrNull req.rut,
                req.fecha_nacimiento.getD "", req.direccion.getD "",
                req.id_comuna.getD "", req.id_genero.getD "", uid,
                jsOrNull req.id_municipalidad, none⟩
            let tipoAsignado : Option String :=
              if req.tipo_usuario == JsVal.num 1 then some "kwLQngxZFsGKG3a3K1xO"
              else if req.tipo_usuario == JsVal.num 2 then some "A0oH8hs2ZQzkcoAmiAR4"
              else if req.tipo_usuario == JsVal.num 3 then some "i2uxd503bDQo9OrcCZFP"
              else none
            let perfil : Perfil :=
              ⟨req.correo.getD "", req.password.getD "", none, tipoAsignado,
                uid, none, true⟩
            let mensajeText := "¡Ayuda! " ++ req.nombre.getD "" ++ " " ++
              req.apellido.getD "" ++
              " está siendo acosada(o) y necesita asistencia inmediata."
            let mensajeDoc : Mensaje := ⟨idMensaje, uid, mensajeText⟩
            { status := 201, message := "Usuario registrado exitosamente."
              errBody := .absent
              db := { db with
                        persona := setDoc db.persona uid persona
                        perfil := setDoc db.perfil uid perfil
                        mensaje := setDoc db.mensaje idMensaje mensajeDoc } }

/-! ## GET /user  (src/routes/usuario/datos_usuario.js, lines 227-264) -/

/-- GET user.  Its catch responds 500 with a fixed message and no `error`
key at all: the caught error's message never reaches the body. -/
def getUser (uid : Option String) (db : DB) (err : Option String) : HOut :=
  if !strTruthy uid then
    { status := 400, message := "El parámetro uid es obligatorio."
      errBody := .absent, db := db }
  else
    match err with
    | some _ =>
        { status := 500, message := "Error al obtener los datos del usuario."
          errBody := .absent, db := db }
    | none =>
        let u := uid.getD ""
        match lookupDoc db.persona u with
        | none =>
            { status := 200, message := "Usuario no encontrado en PERSONA."
              errBody := .absent, db := db }
        | some _ =>
            match lookupDoc db.perfil u with
            | none =>
                { status := 200, message := "Usuario no encontrado en PERFIL."
                  errBody := .absent, db := db }
            | some _ =>
                { status := 200, message := ""
                  errBody := .absent, db := db }

/-! ## GET /obtener-alertas  (src/routes/alerta.js, lines 201-261, and
    the variant of src/routes/usuario/alerta.js) -/

/-- The document-path values read from one ALERTA document are valid
non-empty strings; otherwise the per-alert joins of GET obtener-alertas
throw on the document path inside the try block. -/
def alertaPathsOk (a : Alerta) : Bool :=
  a.id_ubicacion != "" &&
    (match a.id_gravedad with
      | JsVal.str s => s != ""
      | _ => false)

/-- One entry of the GET obtener-alertas response: the alert joined with
its UBICACION coordinates and GRAVEDAD data; `none` in `ubicacion` or
`gravedad` models the literal fallback strings (Ubicación no encontrada,
Gravedad no encontrada) of the response. -/
structure AlertaDetalle where
  id_alerta : String
  comuna : String
  direccion : String
  fecha : Nat
  mensaje : String
  ubicacion : Option (JsVal × JsVal)
  gravedad : Option (String × String)
  deriving DecidableEq, Repr

/-- The response entry assembled for one ALERTA document. -/
def alertaDetalleOf (db : DB) (a : Alerta) : AlertaDetalle :=
  { id_alerta := a.id_alerta
    comuna := a.comuna
    direccion := a.direccion
    fecha := a.fecha
    mensaje := a.mensaje
    ubicacion := (lookupDoc db.ubicacion a.id_ubicacion).map
      (fun u => (u.latitud, u.longitud))
    gravedad := match a.id_gravedad with
      | JsVal.str s =>
          (lookupDoc db.gravedad s).map (fun g => (g.id_gravedad, g.descripcion))
      | _ => none }

/-- Result of GET obtener-alertas. -/
structure ObtenerAlertasOut where
  status : Nat
  message : String
  errBody : ErrBody
  db : DB
  alertas : List AlertaDetalle
  deriving DecidableEq, Repr

/-- GET obtener-alertas (src/routes/alerta.js): all the alertas, or those
whose id_alerta field matches the query parameter; 404 when none match.
An alert carrying an invalid document path in id_ubicacion or
id_gravedad makes the join throw into the catch (500). -/
def obtenerAlertas (id_alerta : Option String) (db : DB)
    (err : Option String) : ObtenerAlertasOut :=
  match err with
  | some m =>
      { status := 500, message := "Error al obtener las alertas."
        errBody := .msgText m, db := db, alertas := [] }
  | none =>
      let sel := if strTruthy id_alerta then
          db.alerta.filter (fun p => p.2.id_alerta == id_alerta.getD "")
        else db.alerta
      if sel.isEmpty then
        { status := 404, message := "No se encontraron alertas."
          errBody := .absent, db := db, alertas := [] }
      else if !(sel.all (fun p => alertaPathsOk p.2)) then
        { status := 500, message := "Error al obtener las alertas."
          errBody := .msgText "Value for argument documentPath is not a valid resource path."
          db := db, alertas := [] }
      else
        { status := 200, message := "", errBody := .absent, db := db
          alertas := sel.map (fun p => alertaDetalleOf db p.2) }

/-- GET obtener-alertas of src/routes/usuario/alerta.js (the variant the
app mounts): identical except that an empty result is answered 200 with
an empty alertas list. -/
def obtenerAlertasUsuario (id_alerta : Option String) (db : DB)
    (err : Option String) : ObtenerAlertasOut :=
  match err with
  | some m =>
      { status := 500, message := "Error al obtener las alertas."
        errBody := .msgText m, db := db, alertas := [] }
  | none =>
      let sel := if strTruthy id_alerta then
          db.alerta.filter (fun p => p.2.id_alerta == id_alerta.getD "")
        else db.alerta
      if sel.isEmpty then
        { status := 200, message := "No se encontraron alertas."
          errBody := .absent, db := db, alertas := [] }
      else if !(sel.all (fun p => alertaPathsOk p.2)) then
        { status := 500, message := "Error al obtener las alertas."
          errBody := .msgText "Value for argument documentPath is not a valid resource path."
          db := db, alertas := [] }
      else
        { status := 200, message := "", errBody := .absent, db := db
          alertas := sel.map (fun p => alertaDetalleOf db p.2) }

/-! ## Funcionario alert routes (listar-alertas-hoy, derivar-alerta) -/

/-- Result of GET listar-alertas-hoy. -/
structure ListarAlertasHoyOut where
  status : Nat
  message : String
  errBody : ErrBody
  db : DB
  alertasDerivadas : List (String × Alerta)
  alertasNoDerivadas : List (String × Alerta)
  deriving DecidableEq, Repr

/-- GET listar-alertas-hoy: the alertas whose fecha lies between the day
bounds `inicio` and `fin` (computed from the clock), split by whether
their document id appears in ALERTA_DERIVADA; 404 when the day has no
alertas. -/
def listarAlertasHoy (db : DB) (inicio fin : Nat) (err : Option String) :
    ListarAlertasHoyOut :=
  match err with
  | some m =>
      { status := 500, message := "Error al obtener las alertas del día de hoy."
        errBody := .msgText m, db := db
        alertasDerivadas := [], alertasNoDerivadas := [] }
  | none =>
      let hoy := db.alerta.filter
        (fun p => decide (inicio ≤ p.2.fecha) && decide (p.2.fecha ≤ fin))
      if hoy.isEmpty then
        { status := 404
          message := "No se encontraron alertas para el día de hoy."
          errBody := .absent, db := db
          alertasDerivadas := [], alertasNoDerivadas := [] }
      else
        let derivada := fun (p : String × Alerta) =>
          !(db.alertaDerivada.filter (fun q => q.2.id_alerta == p.1)).isEmpty
        { status := 200
          message := "Alertas del día de hoy obtenidas exitosamente."
          errBody := .absent, db := db
          alertasDerivadas := hoy.filter derivada
          alertasNoDerivadas := hoy.filter (fun p => !(derivada p)) }

/-- Request body of POST derivar-alerta. -/
structure DerivarAlertaReq where
  id_alerta : Option String
  id_departamento : Option String
  id_funcionario : Option String
  deriving DecidableEq, Repr

/-- POST derivar-alerta: validates the three fields, answers 404 when the
alerta does not exist (before any write), otherwise creates an
ALERTA_DERIVADA document with the generated `newId`. -/
def derivarAlerta (req : DerivarAlertaReq) (db : DB) (newId : String)
    (err : Option String) : HOut :=
  if !(strTruthy req.id_alerta && strTruthy req.id_departamento
      && strTruthy req.id_funcionario) then
    { status := 400
      message := "Los campos id_alerta, id_departamento y id_funcionario son obligatorios."
      errBody := .absent, db := db }
  else
    match err with
    | some m =>
        { status := 500, message := "Error al derivar la alerta."
          errBody := .msgText m, db := db }
    | none =>
        let ida := req.id_alerta.getD ""
        match lookupDoc db.alerta ida with
        | none =>
            { status := 404
              message := "No se encontró la alerta con el id: " ++ ida
              errBody := .absent, db := db }
        | some _ =>
            let nueva : AlertaDerivada :=
              ⟨ida, newId, req.id_departamento.getD "", req.id_funcionario.getD ""⟩
            { status := 201, message := "Alerta derivada exitosamente."
              errBody := .absent
              db := { db with alertaDerivada := db.alertaDerivada ++ [(newId, nueva)] } }

/-! ## Funcionario metrics routes over ALERTA -/

/-- Result of GET alertas-derivadas. -/
structure AlertasDerivadasOut where
  status : Nat
  message : String
  errBody : ErrBody
  db : DB
  total_alertas : Nat
  total_alertas_derivadas : Nat
  total_alertas_no_derivadas : Nat
  deriving DecidableEq, Repr

/-- GET alertas-derivadas: totals of alertas split by membership of their
document id in ALERTA_DERIVADA; an empty ALERTA collection is answered
200 with zero totals. -/
def alertasDerivadasMetrica (db : DB) (err : Option String) :
    AlertasDerivadasOut :=
  match err with
  | some m =>
      { status := 500
        message := "Error al obtener las métricas de alertas derivadas."
        errBody := .msgText m, db := db
        total_alertas := 0, total_alertas_derivadas := 0
        total_alertas_no_derivadas := 0 }
  | none =>
      if db.alerta.isEmpty then
        { status := 200, message := "", errBody := .absent, db := db
          total_alertas := 0, total_alertas_derivadas := 0
          total_alertas_no_derivadas := 0 }
      else
        let derivSet := db.alertaDerivada.map (fun q => q.2.id_alerta)
        { status := 200, message := "", errBody := .absent, db := db
          total_alertas := db.alerta.length
          total_alertas_derivadas :=
            (db.alerta.filter (fun p => derivSet.contains p.1)).length
          total_alertas_no_derivadas :=
            (db.alerta.filter (fun p => !(derivSet.contains p.1))).length }

/-- The comuna key of one alerta in the metrics groupings: the source
replaces a falsy comuna with a fallback label. -/
def comunaKey (a : Alerta) (fallback : String) : String :=
  if a.comuna == "" then fallback else a.comuna

/-- Result of the per-comuna alert groupings. -/
structure AlertasPorComunaOut where
  status : Nat
  message : String
  errBody : ErrBody
  db : DB
  total_alertas : Nat
  alertas_por_comuna : List (String × Nat)
  deriving DecidableEq, Repr

/-- GET alertas-por-comuna: counts all the alertas per comuna key (first
appearance order, falsy comuna mapped to Sin Comuna); an empty ALERTA
collection is answered 200 with a message. -/
def alertasPorComuna (db : DB) (err : Option String) : AlertasPorComunaOut :=
  match err with
  | some m =>
      { status := 500, message := "Error al obtener alertas por comuna"
        errBody := .msgText m, db := db
        total_alertas := 0, alertas_por_comuna := [] }
  | none =>
      if db.alerta.isEmpty then
        { status := 200, message := "No se encontraron alertas"
          errBody := .absent, db := db
          total_alertas := 0, alertas_por_comuna := [] }
      else
        let keys := db.alerta.foldl
          (fun acc p => insertUnique acc (comunaKey p.2 "Sin Comuna")) []
        { status := 200, message := "", errBody := .absent, db := db
          total_alertas := db.alerta.length
          alertas_por_comuna := keys.map (fun k =>
            (k, (db.alerta.filter
              (fun p => comunaKey p.2 "Sin Comuna" == k)).length)) }

/-- GET alertas-mes-actual-por-comuna: like alertas-por-comuna but over
the alertas whose fecha lies in the current month (`inicio` inclusive,
`fin` exclusive) and with the fallback label Comuna desconocida. -/
def alertasMesActualPorComuna (db : DB) (inicio fin : Nat)
    (err : Option String) : AlertasPorComunaOut :=
  match err with
  | some m =>
      { status := 500
        message := "Error al obtener el conteo de alertas del mes actual."
        errBody := .msgText m, db := db
        total_alertas := 0, alertas_por_comuna := [] }
  | none =>
      let mes := db.alerta.filter
        (fun p => decide (inicio ≤ p.2.fecha) && decide (p.2.fecha < fin))
      if mes.isEmpty then
        { status := 200, message := "No se encontraron alertas en el mes actual."
          errBody := .absent, db := db
          total_alertas := 0, alertas_por_comuna := [] }
      else
        let keys := mes.foldl
          (fun acc p => insertUnique acc (comunaKey p.2 "Comuna desconocida")) []
        { status := 200, message := "", errBody := .absent, db := db
          total_alertas := mes.length
          alertas_por_comuna := keys.map (fun k =>
            (k, (mes.filter
              (fun p => comunaKey p.2 "Comuna desconocida" == k)).length)) }

/-- Result of GET alertas-por-mes. -/
structure AlertasPorMesOut where
  status : Nat
  message : String
  errBody : ErrBody
  db : DB
  alertasPorMes : List (String × Nat)
  deriving DecidableEq, Repr

/-- GET alertas-por-mes: counts the alertas per YYYY-MM key of their
fecha; `monthKey` stands for the date library computing that key from a
timestamp (every stored fecha is a Timestamp, so the string-date arm of
the source is not taken).  An empty ALERTA collection is answered 200
with a message. -/
def alertasPorMes (db : DB) (monthKey : Nat → String)
    (err : Option String) : AlertasPorMesOut :=
  match err with
  | some m =>
      { status := 500
        message := "Error al obtener el conteo de alertas por mes."
        errBody := .msgText m, db := db, alertasPorMes := [] }
  | none =>
      if db.alerta.isEmpty then
        { status := 200, message := "No se encontraron alertas."
          errBody := .absent, db := db, alertasPorMes := [] }
      else
        let keys := db.alerta.foldl
          (fun acc p => insertUnique acc (monthKey p.2.fecha)) []
        { status := 200, message := "", errBody := .absent, db := db
          alertasPorMes := keys.map (fun k =>
            (k, (db.alerta.filter (fun p => monthKey p.2.fecha == k)).length)) }

/-! ## Admin GRAVEDAD routes and the gravedad listings -/

/-- PUT editar-gravedad (admin routes): validates id_gravedad and
descripcion, answers 404 when the gravedad does not exist, otherwise
updates only descripcion. -/
def editarGravedad (id_gravedad descripcion : Option String) (db : DB)
    (err : Option String) : HOut :=
  if !(strTruthy id_gravedad && strTruthy descripcion) then
    { status := 400
      message := "Los campos id_gravedad y descripcion son obligatorios."
      errBody := .absent, db := db }
  else
    match err with
    | some m =>
        { status := 500, message := "Error al actualizar la gravedad."
          errBody := .msgText m, db := db }
    | none =>
        let idg := id_gravedad.getD ""
        match lookupDoc db.gravedad idg with
        | none =>
            { status := 404
              message := "No se encontró la gravedad con el id: " ++ idg
              errBody := .absent, db := db }
        | some _ =>
            let gravedad1 := updateDoc db.gravedad idg
              (fun gv => { gv with descripcion := descripcion.getD "" })
            { status := 200, message := "Gravedad actualizada exitosamente."
              errBody := .absent
              db := { db with gravedad := gravedad1 } }

/-- PUT cambiar-estado-gravedad (admin routes): requires id_gravedad
truthy and estado present (the check is `estado === undefined`), answers
404 when the gravedad does not exist, otherwise updates only estado. -/
def cambiarEstadoGravedad (id_gravedad : Option String)
    (estado : Option Bool) (db : DB) (err : Option String) : HOut :=
  if !strTruthy id_gravedad || estado == none then
    { status := 400
      message := "Los campos id_gravedad y estado son obligatorios."
      errBody := .absent, db := db }
  else
    match err with
    | some m =>
        { status := 500
          message := "Error al actualizar el estado de la gravedad."
          errBody := .msgText m, db := db }
    | none =>
        let idg := id_gravedad.getD ""
        match lookupDoc db.gravedad idg with
        | none =>
            { status := 404
              message := "No se encontró la gravedad con el id: " ++ idg
              errBody := .absent, db := db }
        | some _ =>
            let gravedad1 := updateDoc db.gravedad idg
              (fun gv => { gv with estado := estado })
            { status := 200
              message := "Estado de la gravedad actualizado exitosamente."
              errBody := .absent
              db := { db with gravedad := gravedad1 } }

/-- Result of the gravedad listings. -/
structure ListaGravedadesOut where
  status : Nat
  message : String
  errBody : ErrBody
  db : DB
  gravedades : List Gravedad
  deriving DecidableEq, Repr

/-- GET ver-gravedades (admin routes): every GRAVEDAD document; 404 when
the collection is empty. -/
def verGravedades (db : DB) (err : Option String) : ListaGravedadesOut :=
  match err with
  | some m =>
      { status := 500
        message := "Error al obtener la lista de gravedades."
        errBody := .msgText m, db := db, gravedades := [] }
  | none =>
      if db.gravedad.isEmpty then
        { status := 404, message := "No se encontraron gravedades registradas."
          errBody := .absent, db := db, gravedades := [] }
      else
        { status := 200, message := "Lista de gravedades obtenida exitosamente."
          errBody := .absent, db := db
          gravedades := db.gravedad.map (fun p => p.2) }

/-- GET listar-gravedades (src/routes/gestionar_claves.js, lines 33-61):
every GRAVEDAD document; 404 when the collection is empty. -/
def listarGravedades (db : DB) (err : Option String) : ListaGravedadesOut :=
  match err with
  | some m =>
      { status := 500, message := "Error al obtener las gravedades."
        errBody := .msgText m, db := db, gravedades := [] }
  | none =>
      if db.gravedad.isEmpty then
        { status := 404, message := "No se encontraron gravedades."
          errBody := .absent, db := db, gravedades := [] }
      else
        { status := 200, message := "", errBody := .absent, db := db
          gravedades := db.gravedad.map (fun p => p.2) }

/-! ## Remaining CLAVE and MENSAJE routes -/

/-- DELETE eliminar-clave (src/routes/gestionar_claves.js, lines
365-394): performs no required-field validation (a missing or empty
id_clave throws on the document path, 500), answers 404 when the clave
does not exist, otherwise deletes it. -/
def eliminarClave (id_clave : Option String) (db : DB)
    (err : Option String) : HOut :=
  match validDocPath id_clave with
  | none =>
      { status := 500, message := "Error al eliminar la clave."
        errBody := .msgText "Value for argument documentPath is not a valid resource path."
        db := db }
  | some idc =>
      match err with
      | some m =>
          { status := 500, message := "Error al eliminar la clave."
            errBody := .msgText m, db := db }
      | none =>
          match lookupDoc db.clave idc with
          | none =>
              { status := 404, message := "Clave no encontrada."
                errBody := .absent, db := db }
          | some _ =>
              { status := 200, message := "Clave eliminada exitosamente."
                errBody := .absent
                db := { db with clave := deleteDoc db.clave idc } }

/-- PUT editar-mensaje (src/routes/gestionar_claves.js, lines 699-735):
validates both fields, answers 404 when the mensaje does not exist,
otherwise updates only the mensaje text. -/
def editarMensaje (id_mensaje mensaje : Option String) (db : DB)
    (err : Option String) : HOut :=
  if !(strTruthy id_mensaje && strTruthy mensaje) then
    { status := 400
      message := "Los campos id_mensaje y mensaje son obligatorios."
      errBody := .absent, db := db }
  else
    match err with
    | some m =>
        { status := 500, message := "Error al actualizar el mensaje."
          errBody := .msgText m, db := db }
    | none =>
        let idm := id_mensaje.getD ""
        match lookupDoc db.mensaje idm with
        | none =>
            { status := 404, message := "Mensaje no encontrado."
              errBody := .absent, db := db }
        | some _ =>
            let mensaje1 := updateDoc db.mensaje idm
              (fun md => { md with mensaje := mensaje.getD "" })
            { status := 200, message := "Mensaje actualizado exitosamente."
              errBody := .absent
              db := { db with mensaje := mensaje1 } }

/-- Result of GET obtener-mensajes. -/
structure ObtenerMensajesOut where
  status : Nat
  message : String
  errBody : ErrBody
  db : DB
  mensajes : List Mensaje
  deriving DecidableEq, Repr

/-- GET obtener-mensajes (src/routes/gestionar_claves.js, lines 438-475):
the mensajes of the given person; 404 when there are none. -/
def obtenerMensajes (id_persona : Option String) (db : DB)
    (err : Option String) : ObtenerMensajesOut :=
  if !strTruthy id_persona then
    { status := 400, message := "El parámetro id_persona es obligatorio."
      errBody := .absent, db := db, mensajes := [] }
  else
    match err with
    | some m =>
        { status := 500, message := "Error al obtener los mensajes."
          errBody := .msgText m, db := db, mensajes := [] }
    | none =>
        let ms := db.mensaje.filter
          (fun p => p.2.id_persona == id_persona.getD "")
        if ms.isEmpty then
          { status := 404
            message := "No se encontraron mensajes para la persona proporcionada."
            errBody := .absent, db := db, mensajes := [] }
        else
          { status := 200, message := "", errBody := .absent, db := db
            mensajes := ms.map (fun p => p.2) }

/-! ## Remaining CONTACTO routes -/

/-- Request body of PUT editar-contacto. -/
structure EditarContactoReq where
  nombres : Option String
  apellidos : Option String
  celular : Option String
  email : Option String
  id_contacto : Option String
  deriving DecidableEq, Repr

/-- PUT editar-contacto (src/routes/alerta.js, lines 383-410): validates
the four data fields but not id_contacto (a missing id throws on the
document path, 500); answers 404 when the contacto does not exist,
otherwise updates the four fields. -/
def editarContacto (req : EditarContactoReq) (db : DB)
    (err : Option String) : HOut :=
  if !(strTruthy req.nombres && strTruthy req.apellidos
      && strTruthy req.celular && strTruthy req.email) then
    { status := 400
      message := "Todos los campos (nombres, apellidos, celular, email) son obligatorios"
      errBody := .absent, db := db }
  else
    match validDocPath req.id_contacto with
    | none =>
        { status := 500, message := "Error al actualizar el contacto"
          errBody := .emptyObj, db := db }
    | some idc =>
        match err with
        | some _ =>
            { status := 500, message := "Error al actualizar el contacto"
              errBody := .emptyObj, db := db }
        | none =>
            match lookupDoc db.contacto idc with
            | none =>
                { status := 404
                  message := "No se encontró el contacto con id: " ++ idc
                  errBody := .absent, db := db }
            | some _ =>
                let contacto1 := updateDoc db.contacto idc
                  (fun c => { c with
                    nombres := req.nombres.getD ""
                    apellidos := req.apellidos.getD ""
                    celular := some (req.celular.getD "")
                    email := req.email.getD "" })
                { status := 200, message := "Contacto actualizado exitosamente"
                  errBody := .absent
                  db := { db with contacto := contacto1 } }

/-- PUT editar-contacto of src/routes/usuario/alerta.js (the variant the
app mounts): identical except that a missing contacto is answered 200. -/
def editarContactoUsuario (req : EditarContactoReq) (db : DB)
    (err : Option String) : HOut :=
  if !(strTruthy req.nombres && strTruthy req.apellidos
      && strTruthy req.celular && strTruthy req.email) then
    { status := 400
      message := "Todos los campos (nombres, apellidos, celular, email) son obligatorios"
      errBody := .absent, db := db }
  else
    match validDocPath req.id_contacto with
    | none =>
        { status := 500, message := "Error al actualizar el contacto"
          errBody := .emptyObj, db := db }
    | some idc =>
        match err with
        | some _ =>
            { status := 500, message := "Error al actualizar el contacto"
              errBody := .emptyObj, db := db }
        | none =>
            match lookupDoc db.contacto idc with
            | none =>
                { status := 200
                  message := "No se encontró el contacto con id: " ++ idc
                  errBody := .absent, db := db }
            | some _ =>
                let contacto1 := updateDoc db.contacto idc
                  (fun c => { c with
                    nombres := req.nombres.getD ""
                    apellidos := req.apellidos.getD ""
                    celular := some (req.celular.getD "")
                    email := req.email.getD "" })
                { status := 200, message := "Contacto actualizado exitosamente"
                  errBody := .absent
                  db := { db with contacto := contacto1 } }

/-- DELETE borrar-contacto of src/routes/usuario/alerta.js (the variant
the app mounts): identical to borrar-contacto except that a missing
contacto is answered 200. -/
def borrarContactoUsuario (id_contacto : Option String) (db : DB)
    (err : Option String) : HOut :=
  if !strTruthy id_contacto then
    { status := 400, message := "El id_contacto es requerido"
      errBody := .absent, db := db }
  else
    match err with
    | some _ =>
        { status := 500, message := "Error al eliminar el contacto"
          errBody := .emptyObj, db := db }
    | none =>
        let idc := id_contacto.getD ""
        match lookupDoc db.contacto idc with
        | none =>
            { status := 200
              message := "No se encontró el contacto con id: " ++ idc
              errBody := .absent, db := db }
        | some _ =>
            { status := 200, message := "Contacto eliminado exitosamente"
              errBody := .absent
              db := { db with contacto := deleteDoc db.contacto idc } }

/-- Result of the contact listings. -/
structure VerContactosOut where
  status : Nat
  message : String
  errBody : ErrBody
  db : DB
  contactos : List (String × Contacto)
  deriving DecidableEq, Repr

/-- GET ver-CONTACTO (src/routes/alerta.js, lines 485-515): the contactos
of the given user; 404 when there are none. -/
def verContactos (id_usuario : Option String) (db : DB)
    (err : Option String) : VerContactosOut :=
  if !strTruthy id_usuario then
    { status := 400, message := "El id_usuario es requerido"
      errBody := .absent, db := db, contactos := [] }
  else
    match err with
    | some _ =>
        { status := 500, message := "Error al obtener los CONTACTO"
          errBody := .emptyObj, db := db, contactos := [] }
    | none =>
        let cs := db.contacto.filter
          (fun p => p.2.id_usuario == id_usuario.getD "")
        if cs.isEmpty then
          { status := 404
            message := "No se encontraron CONTACTO para el usuario con id: " ++
              id_usuario.getD ""
            errBody := .absent, db := db, contactos := [] }
        else
          { status := 200, message := "CONTACTO obtenidos exitosamente"
            errBody := .absent, db := db, contactos := cs }

/-- GET ver-contactos of src/routes/usuario/alerta.js (the variant the
app mounts): identical except that an empty result is answered 200 with
an empty list. -/
def verContactosUsuario (id_usuario : Option String) (db : DB)
    (err : Option String) : VerContactosOut :=
  if !strTruthy id_usuario then
    { status := 400, message := "El id_usuario es requerido"
      errBody := .absent, db := db, contactos := [] }
  else
    match err with
    | some _ =>
        { status := 500, message := "Error al obtener los CONTACTO"
          errBody := .emptyObj, db := db, contactos := [] }
    | none =>
        let cs := db.contacto.filter
          (fun p => p.2.id_usuario == id_usuario.getD "")
        if cs.isEmpty then
          { status := 200
            message := "No se encontraron CONTACTO para el usuario con id: " ++
              id_usuario.getD ""
            errBody := .absent, db := db, contactos := [] }
        else
          { status := 200, message := "CONTACTO obtenidos exitosamente"
            errBody := .absent, db := db, contactos := cs }

/-! ## Remaining GRUPO routes -/

/-- One member entry of the GET grupo-completo response. -/
structure MiembroGrupo where
  id_usuario : String
  persona : Persona
  perfil : Option Perfil
  deriving DecidableEq, Repr

/-- Result of GET grupo-completo. -/
structure GrupoCompletoOut where
  status : Nat
  message : String
  errBody : ErrBody
  db : DB
  grupo : Option Grupo
  miembros : List MiembroGrupo
  deriving DecidableEq, Repr

/-- GET grupo-completo (src/routes/usuario/grupo.js, lines 418-471): no
validation of id_grupo (a missing value throws on the document path,
500); a missing group or a group without members is answered 200 with
empty payloads; otherwise the members are joined with their PERSONA
(skipping missing ones) and PERFIL documents.  The inner length-zero
check of the source is unreachable after the empty check. -/
def grupoCompleto (id_grupo : Option String) (db : DB)
    (err : Option String) : GrupoCompletoOut :=
  match validDocPath id_grupo with
  | none =>
      { status := 500
        message := "Error al obtener la información completa del grupo"
        errBody := .msgText "Value for argument documentPath is not a valid resource path."
        db := db, grupo := none, miembros := [] }
  | some g =>
      match err with
      | some m =>
          { status := 500
            message := "Error al obtener la información completa del grupo"
            errBody := .msgText m, db := db, grupo := none, miembros := [] }
      | none =>
          match lookupDoc db.grupo g with
          | none =>
              { status := 200, message := "El grupo con id " ++ g ++ " no existe."
                errBody := .absent, db := db, grupo := none, miembros := [] }
          | some gd =>
              let gp := db.grupoPersona.filter (fun p => p.2.id_grupo == g)
              if gp.isEmpty then
                { status := 200
                  message := "No se encontraron miembros para este grupo."
                  errBody := .absent, db := db, grupo := none, miembros := [] }
              else
                let ids := gp.map (fun p => p.2.id_usuario)
                { status := 200
                  message := "Información completa del grupo obtenida exitosamente."
                  errBody := .absent, db := db, grupo := some gd
                  miembros := ids.filterMap (fun u =>
                    (lookupDoc db.persona u).map (fun pd =>
                      ⟨u, pd, lookupDoc db.perfil u⟩)) }

/-- Result of the group listings. -/
structure ListaGruposOut where
  status : Nat
  message : String
  errBody : ErrBody
  db : DB
  grupos : List (String × Grupo)
  deriving DecidableEq, Repr

/-- GET ver-grupos-creados (src/routes/usuario/grupo.js, lines 304-330):
id_usuario is not validated — an absent query parameter reaches where()
as undefined and the Firestore client rejects it (500).  An empty result
is answered 200 with an empty list. -/
def verGruposCreados (id_usuario : Option String) (db : DB)
    (err : Option String) : ListaGruposOut :=
  match id_usuario with
  | none =>
      { status := 500, message := "Error al obtener los grupos activos"
        errBody := .msgText "Cannot use undefined as a Firestore value."
        db := db, grupos := [] }
  | some u =>
      match err with
      | some m =>
          { status := 500, message := "Error al obtener los grupos activos"
            errBody := .msgText m, db := db, grupos := [] }
      | none =>
          let gs := db.grupo.filter
            (fun p => p.2.id_usuario == u && p.2.estado)
          if gs.isEmpty then
            { status := 200
              message := "No se encontraron grupos activos para este usuario."
              errBody := .absent, db := db, grupos := [] }
          else
            { status := 200, message := "Grupos activos obtenidos exitosamente."
              errBody := .absent, db := db, grupos := gs }

/-- GET ver-grupos-usuario (src/routes/usuario/grupo.js, lines 354-394):
id_usuario is not validated (undefined in where() throws, 500); no
membership is answered 200 with an empty list; the active groups are
fetched with a documentId-in query, which the client limits to ten ids
(more throw into the catch, 500); an empty result is answered 200.  The
inner length-zero check of the source is unreachable after the empty
check. -/
def verGruposUsuario (id_usuario : Option String) (db : DB)
    (err : Option String) : ListaGruposOut :=
  match id_usuario with
  | none =>
      { status := 500
        message := "Error al obtener los grupos activos del usuario"
        errBody := .msgText "Cannot use undefined as a Firestore value."
        db := db, grupos := [] }
  | some u =>
      match err with
      | some m =>
          { status := 500
            message := "Error al obtener los grupos activos del usuario"
            errBody := .msgText m, db := db, grupos := [] }
      | none =>
          let gp := db.grupoPersona.filter (fun p => p.2.id_usuario == u)
          if gp.isEmpty then
            { status := 200
              message := "No se encontraron grupos para este usuario."
              errBody := .absent, db := db, grupos := [] }
          else
            let idGrupos := gp.map (fun p => p.2.id_grupo)
            if decide (10 < idGrupos.length) then
              { status := 500
                message := "Error al obtener los grupos activos del usuario"
                errBody := .msgText "in filters support a maximum of 10 elements in the value array."
                db := db, grupos := [] }
            else
              let activos := db.grupo.filter
                (fun p => idGrupos.contains p.1 && p.2.estado)
              if activos.isEmpty then
                { status := 200
                  message := "No se encontraron grupos activos para este usuario."
                  errBody := .absent, db := db, grupos := [] }
              else
                { status := 200
                  message := "Grupos activos obtenidos exitosamente."
                  errBody := .absent, db := db, grupos := activos }

/-! ## Predicates and concrete fixtures used by the theorems -/

/-- Exactly one of the three search flags of an UBICACION_SELECCION
document is 1 and the other two are 0. -/
abbrev exactlyOneFlag (d : UbicacionSeleccion) : Prop :=
  (d.persona_buscar = 1 ∧ d.grupo_buscar = 0 ∧ d.todos = 0) ∨
  (d.persona_buscar = 0 ∧ d.grupo_buscar = 1 ∧ d.todos = 0) ∨
  (d.persona_buscar = 0 ∧ d.grupo_buscar = 0 ∧ d.todos = 1)

/-- Fixture: three contacts, two of user u1 (one of them without a
celular) and one of user u2. -/
def dbContactos : DB :=
  { DB.empty with contacto :=
      [("c1", ⟨"c1", "Ana", "Diaz", some "911111111", "ana@x.cl", "u1"⟩),
       ("c2", ⟨"c2", "Eva", "Soto", none, "eva@x.cl", "u1"⟩),
       ("c3", ⟨"c3", "Luz", "Rojas", some "922222222", "luz@x.cl", "u2"⟩)] }

/-- Fixture: one active group g1 and two UBICACION_SELECCION documents,
one of them pointing at g1. -/
def dbGrupoSel : DB :=
  { DB.empty with
      grupo := [("g1", ⟨"g1", "Amigas", "#ff5733", some "salidas", some "urlvieja", true, "u1"⟩)]
      ubicacionSeleccion :=
        [("s1", ⟨"p1", some "g1", 0, 1, 0, none⟩),
         ("s2", ⟨"p2", none, 1, 0, 0, some "p9"⟩)] }

/-- Fixture: two claves of user u1, the second referencing a MENSAJE and
a GRAVEDAD document that do not exist. -/
def dbClaves : DB :=
  { DB.empty with
      clave := [("k1", ⟨"k1", "gv1", "u1", "platano", "m1"⟩),
                ("k2", ⟨"k2", "gvX", "u1", "camisa", "mX"⟩)]
      mensaje := [("m1", ⟨"m1", "u1", "Ayuda urgente"⟩)]
      gravedad := [("gv1", ⟨"gv1", "Alta", some true⟩)] }

/-- Fixture: user u7 belongs to group gX, which has no GRUPO document
(so the user has no active group). -/
def dbMiembros : DB :=
  { DB.empty with grupoPersona := [("gp1", ⟨"gp1", "gX", "u7"⟩)] }

/-- Fixture: person u1 owns messages m1 and m2, person u2 owns m3; two
claves reference m1 and m2. -/
def dbMensajes : DB :=
  { DB.empty with
      mensaje := [("m1", ⟨"m1", "u1", "hola"⟩),
                  ("m2", ⟨"m2", "u1", "chao"⟩),
                  ("m3", ⟨"m3", "u2", "otro"⟩)]
      clave := [("k1", ⟨"k1", "gv", "u1", "w", "m1"⟩),
                ("k2", ⟨"k2", "gv", "u1", "v", "m2"⟩)] }

/-! ## Shared lemmas about the store primitives -/

theorem lookupDoc_updateDoc_self {α : Type} (l : List (String × α))
    (id : String) (f : α → α) :
    lookupDoc (updateDoc l id f) id = (lookupDoc l id).map f := by
  induction l with
  | nil => rfl
  | cons p t ih =>
    by_cases hp : p.1 = id
    · simp [lookupDoc, updateDoc, hp]
    · simp only [lookupDoc, updateDoc, List.map_cons, List.find?] at ih ⊢
      have hbeq : (p.1 == id) = false := by simp [hp]
      simp [hbeq, hp] at ih ⊢
      exact ih

theorem lookupDoc_mem {α : Type} {l : List (String × α)} {id : String}
    {y : α} (h : lookupDoc l id = some y) : (id, y) ∈ l := by
  unfold lookupDoc at h
  cases hf : l.find? (fun p => p.1 == id) with
  | none => rw [hf] at h; simp at h
  | some q =>
    rw [hf] at h
    simp at h
    have hq := List.find?_some hf
    have hmem := List.mem_of_find?_eq_some hf
    simp at hq
    have : q = (id, y) := by
      cases q with
      | mk a b => simp at hq h ⊢; exact ⟨hq, h⟩
    rw [this] at hmem
    exact hmem

theorem lookupDoc_unique {α : Type} {l : List (String × α)}
    (hnd : l.Pairwise (fun a b => a.1 ≠ b.1)) {id : String} {x y : α}
    (hx : (id, x) ∈ l) (hy : lookupDoc l id = some y) : x = y := by
  induction l with
  | nil => cases hx
  | cons p t ih =>
    rcases List.pairwise_cons.mp hnd with ⟨hp, ht⟩
    rcases List.mem_cons.mp hx with hx1 | hx2
    · subst hx1
      unfold lookupDoc at hy
      simp [List.find?] at hy
      exact hy
    · have hne : ¬ ((fun (q : String × α) => q.1 == id) p) = true := by
        simp
        exact hp _ hx2
      have hfind : List.find? (fun (q : String × α) => q.1 == id) (p :: t) =
          List.find? (fun q => q.1 == id) t :=
        List.find?_cons_of_neg t hne
      have hstep : lookupDoc (p :: t) id = lookupDoc t id := by
        unfold lookupDoc
        rw [hfind]
      rw [hstep] at hy
      exact ih ht hx2 hy

/-! ## C10: truthiness-based rejection in POST /guardar-ubicacion -/

/-- C10: POST guardar-ubicacion rejects with status 400 and performs no
write (and sends no message) whenever latitud or longitud is the number 0
or mensaje is the empty string, even though every required field is
present in the body, because the required-field check uses JavaScript
truthiness. -/
theorem c10_guardarUbicacion_zero_reject
    (req : GuardarUbicacionReq) (db : DB) (geo : List GeoEntry) (now : Nat)
    (idU idA : String) (err : Option String)
    (_hpres : req.id_usuario ≠ JsVal.undef ∧ req.latitud ≠ JsVal.undef ∧
      req.longitud ≠ JsVal.undef ∧ req.id_gravedad ≠ JsVal.undef ∧
      req.mensaje ≠ JsVal.undef)
    (hzero : req.latitud = JsVal.num 0 ∨ req.longitud = JsVal.num 0 ∨
      req.mensaje = JsVal.str "") :
    (guardarUbicacion req db geo now idU idA err).status = 400 ∧
    (guardarUbicacion req db geo now idU idA err).db = db ∧
    (guardarUbicacion req db geo now idU idA err).sent = [] := by
  have hcond : (req.id_usuario.truthy && req.latitud.truthy &&
      req.longitud.truthy && req.id_gravedad.truthy && req.mensaje.truthy) = false := by
    rcases hzero with h | h | h <;> simp [h, JsVal.truthy]
  unfold guardarUbicacion
  simp [hcond]

/-- Witness for C10 at a concrete request with latitud 0. -/
theorem c10_guardarUbicacion_zero_reject_witness :
    (guardarUbicacion ⟨.str "u1", .num 0, .num (-70), .str "gv1", .str "ayuda"⟩
      DB.empty [] 0 "ub1" "al1" none).status = 400 ∧
    (guardarUbicacion ⟨.str "u1", .num 0, .num (-70), .str "gv1", .str "ayuda"⟩
      DB.empty [] 0 "ub1" "al1" none).db = DB.empty ∧
    (guardarUbicacion ⟨.str "u1", .num 0, .num (-70), .str "gv1", .str "ayuda"⟩
      DB.empty [] 0 "ub1" "al1" none).sent = [] :=
  c10_guardarUbicacion_zero_reject _ DB.empty [] 0 "ub1" "al1" none
    (by refine ⟨?_, ?_, ?_, ?_, ?_⟩ <;> decide) (by decide)

/-! ## C2: WhatsApp fan-out of POST /guardar-ubicacion -/

/-- C2: on every successful POST guardar-ubicacion, exactly one WhatsApp
message carrying the composed alert text is sent per CONTACTO document of
the requesting user with a non-empty celular, and none for contacts
without one: the number of messages equals the number of such contacts,
every message body is the composed alert text, and every message
corresponds to a matching contact with a non-empty celular. -/
theorem c2_guardarUbicacion_fanout
    (req : GuardarUbicacionReq) (db : DB) (geo : List GeoEntry) (now : Nat)
    (idU idA : String)
    (hval : (req.id_usuario.truthy && req.latitud.truthy && req.longitud.truthy
      && req.id_gravedad.truthy && req.mensaje.truthy) = true) :
    (guardarUbicacion req db geo now idU idA none).status = 200 ∧
    (guardarUbicacion req db geo now idU idA none).sent.length =
      (db.contacto.filter (fun p =>
        JsVal.str p.2.id_usuario == req.id_usuario && strTruthy p.2.celular)).length ∧
    (∀ msg ∈ (guardarUbicacion req db geo now idU idA none).sent,
      msg.body = composedMensaje req.mensaje.interp (geoDireccion geo)
        req.latitud req.longitud) ∧
    (∀ msg ∈ (guardarUbicacion req db geo now idU idA none).sent,
      ∃ p ∈ db.contacto, (JsVal.str p.2.id_usuario == req.id_usuario) = true ∧
        strTruthy p.2.celular = true ∧
        msg.toNumber = "whatsapp:+56" ++ p.2.celular.getD "") := by
  unfold guardarUbicacion
  simp only [hval, Bool.not_true, Bool.false_eq_true, if_false]
  refine ⟨trivial, ?_, ?_, ?_⟩
  · simp [List.length_map, List.filter_filter, Bool.and_comm]
  · intro msg hmsg
    simp only [List.mem_map] at hmsg
    rcases hmsg with ⟨p, hp, hform⟩
    rw [← hform]
  · intro msg hmsg
    simp only [List.mem_map] at hmsg
    rcases hmsg with ⟨p, hp, hform⟩
    rcases List.mem_filter.mp hp with ⟨hp2, hcel⟩
    rcases List.mem_filter.mp hp2 with ⟨hmem, huid⟩
    exact ⟨p, hmem, huid, hcel, by rw [← hform]⟩

/-- Witness for C2 on the contact fixture: user u1 has two contacts, one
with a celular and one without, so exactly one message is sent. -/
theorem c2_guardarUbicacion_fanout_witness :
    (guardarUbicacion ⟨.str "u1", .num (-33), .num (-70), .str "gv1", .str "socorro"⟩
      dbContactos [⟨some "Santiago", "Calle Falsa 123"⟩] 5 "ub1" "al1" none).status = 200 ∧
    (guardarUbicacion ⟨.str "u1", .num (-33), .num (-70), .str "gv1", .str "socorro"⟩
      dbContactos [⟨some "Santiago", "Calle Falsa 123"⟩] 5 "ub1" "al1" none).sent.length =
      (dbContactos.contacto.filter (fun p =>
        JsVal.str p.2.id_usuario == JsVal.str "u1" && strTruthy p.2.celular)).length ∧
    (∀ msg ∈ (guardarUbicacion ⟨.str "u1", .num (-33), .num (-70), .str "gv1", .str "socorro"⟩
      dbContactos [⟨some "Santiago", "Calle Falsa 123"⟩] 5 "ub1" "al1" none).sent,
      msg.body = composedMensaje (JsVal.str "socorro").interp
        (geoDireccion [⟨some "Santiago", "Calle Falsa 123"⟩])
        (JsVal.num (-33)) (JsVal.num (-70))) ∧
    (∀ msg ∈ (guardarUbicacion ⟨.str "u1", .num (-33), .num (-70), .str "gv1", .str "socorro"⟩
      dbContactos [⟨some "Santiago", "Calle Falsa 123"⟩] 5 "ub1" "al1" none).sent,
      ∃ p ∈ dbContactos.contacto,
        (JsVal.str p.2.id_usuario == JsVal.str "u1") = true ∧
        strTruthy p.2.celular = true ∧
        msg.toNumber = "whatsapp:+56" ++ p.2.celular.getD "") :=
  c2_guardarUbicacion_fanout _ dbContactos _ 5 "ub1" "al1" (by decide)

/-! ## C1: flag dispatch of POST /actualizar-ubicacion-seleccion -/

theorem mem_upsertSeleccion (db : DB) (idp newDocId : String)
    (data : UbicacionSeleccion) :
    data ∈ (upsertSeleccion db idp newDocId data).1.ubicacionSeleccion.map Prod.snd := by
  unfold upsertSeleccion
  cases hfind : db.ubicacionSeleccion.find? (fun q => q.2.id_persona == idp) with
  | none => simp
  | some existing =>
    simp only
    refine List.mem_map.mpr ⟨(existing.1, data), ?_, rfl⟩
    unfold updateDoc
    exact List.mem_map.mpr ⟨existing, List.mem_of_find?_eq_some hfind, by simp⟩

/-- C1 (amended): POST actualizar-ubicacion-seleccion with id_persona
present and tipo equal to 1, 2 or 3 writes (updating the existing
document or creating one) an UBICACION_SELECCION document with exactly
one of the flags persona_buscar, grupo_buscar, todos set to 1 and the
other two 0: tipo 1 sets persona_buscar with id_persona_buscar
defaulting to the requester, tipo 2 sets grupo_buscar and takes id_grupo
from the request when the field is present (a string or null) — while a
tipo-2 request without id_grupo is answered 500 with no write, because
the Firestore client rejects the undefined field value — and tipo 3 sets
todos; any tipo outside 1..3 (a number, a string, null or absent) is
rejected with 400 and no write occurs. -/
theorem c1_actualizarSel_dispatch
    (req : ActualizarSelReq) (db : DB) (newDocId : String)
    (p : String) (hid : req.id_persona = some p) (hp : p ≠ "") :
    (req.tipo = JsVal.num 1 →
      ∃ d, (actualizarUbicacionSeleccion req db newDocId none).written = some d ∧
        (actualizarUbicacionSeleccion req db newDocId none).status = 200 ∧
        d ∈ (actualizarUbicacionSeleccion req db newDocId none).db.ubicacionSeleccion.map Prod.snd ∧
        exactlyOneFlag d ∧ d.id_persona = p ∧
        d.persona_buscar = 1 ∧ d.grupo_buscar = 0 ∧ d.todos = 0 ∧
        d.id_persona_buscar = some (jsOrElse req.id_persona_buscar p) ∧
        d.id_grupo = none) ∧
    (req.tipo = JsVal.num 2 → ∀ g, req.id_grupo = some g →
      ∃ d, (actualizarUbicacionSeleccion req db newDocId none).written = some d ∧
        (actualizarUbicacionSeleccion req db newDocId none).status = 200 ∧
        d ∈ (actualizarUbicacionSeleccion req db newDocId none).db.ubicacionSeleccion.map Prod.snd ∧
        exactlyOneFlag d ∧ d.id_persona = p ∧
        d.grupo_buscar = 1 ∧ d.persona_buscar = 0 ∧ d.todos = 0 ∧
        d.id_grupo = g) ∧
    (req.tipo = JsVal.num 2 → req.id_grupo = none →
      (actualizarUbicacionSeleccion req db newDocId none).status = 500 ∧
      (actualizarUbicacionSeleccion req db newDocId none).db = db ∧
      (actualizarUbicacionSeleccion req db newDocId none).written = none) ∧
    (req.tipo = JsVal.num 3 →
      ∃ d, (actualizarUbicacionSeleccion req db newDocId none).written = some d ∧
        (actualizarUbicacionSeleccion req db newDocId none).status = 200 ∧
        d ∈ (actualizarUbicacionSeleccion req db newDocId none).db.ubicacionSeleccion.map Prod.snd ∧
        exactlyOneFlag d ∧ d.id_persona = p ∧
        d.todos = 1 ∧ d.persona_buscar = 0 ∧ d.grupo_buscar = 0) ∧
    ((req.tipo ≠ JsVal.num 1 ∧ req.tipo ≠ JsVal.num 2 ∧ req.tipo ≠ JsVal.num 3) →
      (actualizarUbicacionSeleccion req db newDocId none).status = 400 ∧
      (actualizarUbicacionSeleccion req db newDocId none).db = db ∧
      (actualizarUbicacionSeleccion req db newDocId none).written = none) := by
  refine ⟨?_, ?_, ?_, ?_, ?_⟩
  · intro ht
    have hrun : actualizarUbicacionSeleccion req db newDocId none =
        { status := 200
          message := (upsertSeleccion db p newDocId
            ⟨p, none, 1, 0, 0, some (jsOrElse req.id_persona_buscar p)⟩).2
          errBody := .absent
          db := (upsertSeleccion db p newDocId
            ⟨p, none, 1, 0, 0, some (jsOrElse req.id_persona_buscar p)⟩).1
          written := some ⟨p, none, 1, 0, 0, some (jsOrElse req.id_persona_buscar p)⟩ } := by
      simp [actualizarUbicacionSeleccion, hid, ht, strTruthy, hp]
    refine ⟨⟨p, none, 1, 0, 0, some (jsOrElse req.id_persona_buscar p)⟩,
      by rw [hrun], by rw [hrun], ?_, Or.inl ⟨rfl, rfl, rfl⟩, rfl,
      rfl, rfl, rfl, rfl, rfl⟩
    rw [hrun]
    exact mem_upsertSeleccion db p newDocId _
  · intro ht g hg
    have hrun : actualizarUbicacionSeleccion req db newDocId none =
        { status := 200
          message := (upsertSeleccion db p newDocId ⟨p, g, 0, 1, 0, none⟩).2
          errBody := .absent
          db := (upsertSeleccion db p newDocId ⟨p, g, 0, 1, 0, none⟩).1
          written := some ⟨p, g, 0, 1, 0, none⟩ } := by
      simp [actualizarUbicacionSeleccion, hid, ht, hg, strTruthy, hp]
    refine ⟨⟨p, g, 0, 1, 0, none⟩,
      by rw [hrun], by rw [hrun], ?_, Or.inr (Or.inl ⟨rfl, rfl, rfl⟩), rfl,
      rfl, rfl, rfl, rfl⟩
    rw [hrun]
    exact mem_upsertSeleccion db p newDocId _
  · intro ht hg
    simp [actualizarUbicacionSeleccion, hid, ht, hg, strTruthy, hp]
  · intro ht
    have hrun : actualizarUbicacionSeleccion req db newDocId none =
        { status := 200
          message := (upsertSeleccion db p newDocId ⟨p, none, 0, 0, 1, none⟩).2
          errBody := .absent
          db := (upsertSeleccion db p newDocId ⟨p, none, 0, 0, 1, none⟩).1
          written := some ⟨p, none, 0, 0, 1, none⟩ } := by
      simp [actualizarUbicacionSeleccion, hid, ht, strTruthy, hp]
    refine ⟨⟨p, none, 0, 0, 1, none⟩,
      by rw [hrun], by rw [hrun], ?_, Or.inr (Or.inr ⟨rfl, rfl, rfl⟩), rfl,
      rfl, rfl, rfl⟩
    rw [hrun]
    exact mem_upsertSeleccion db p newDocId _
  · rintro ⟨h1, h2, h3⟩
    by_cases hu : req.tipo = JsVal.undef
    · simp [actualizarUbicacionSeleccion, hid, hp, strTruthy, hu]
    · simp [actualizarUbicacionSeleccion, hid, hp, strTruthy, hu, h1, h2, h3]

/-- C1 counterexample: a tipo-2 request without id_grupo writes no
UBICACION_SELECCION document at all — the undefined field value is
rejected by the Firestore client and the handler answers 500 leaving the
store unchanged — so no written document with grupo_buscar set exists
for this tipo-2 request. -/
theorem c1_actualizarSel_dispatch_counterexample :
    (actualizarUbicacionSeleccion ⟨some "p1", JsVal.num 2, none, none⟩
      DB.empty "sel1" none).written = none ∧
    (actualizarUbicacionSeleccion ⟨some "p1", JsVal.num 2, none, none⟩
      DB.empty "sel1" none).status = 500 ∧
    (actualizarUbicacionSeleccion ⟨some "p1", JsVal.num 2, none, none⟩
      DB.empty "sel1" none).db = DB.empty := by decide

/-- Witness for C1: tipo 2 with id_grupo present, on the empty store,
creates a document with only grupo_buscar set. -/
theorem c1_actualizarSel_dispatch_witness :
    ∃ d, (actualizarUbicacionSeleccion
        ⟨some "p1", JsVal.num 2, some (some "g1"), none⟩ DB.empty "sel1" none).written = some d ∧
      (actualizarUbicacionSeleccion
        ⟨some "p1", JsVal.num 2, some (some "g1"), none⟩ DB.empty "sel1" none).status = 200 ∧
      d ∈ (actualizarUbicacionSeleccion
        ⟨some "p1", JsVal.num 2, some (some "g1"), none⟩ DB.empty "sel1" none).db.ubicacionSeleccion.map Prod.snd ∧
      exactlyOneFlag d ∧ d.id_persona = "p1" ∧
      d.grupo_buscar = 1 ∧ d.persona_buscar = 0 ∧ d.todos = 0 ∧
      d.id_grupo = some "g1" :=
  (c1_actualizarSel_dispatch ⟨some "p1", JsVal.num 2, some (some "g1"), none⟩
    DB.empty "sel1" "p1" rfl (by decide)).2.1 rfl (some "g1") rfl

/-! ## C3: behaviour on missing required fields -/

/-- C3 (amended): the handlers that validate required fields answer a
missing one with status 400, a message and no database write
(POST guardar-ubicacion, POST actualizar-ubicacion-seleccion, and GET
obtener-ubicacion-seleccion for its id_persona); but GET
obtener-ubicacion-seleccion answers 200, not 400, when persona_buscar is
active and the then-required id_persona_buscar is missing, and PUT
editar-clave performs no required-field validation at all: a missing
id_clave makes the Firestore document-path constructor throw and the
response is the catch block's 500.  In all of these cases no write
occurs. -/
theorem c3_missing_required_fields :
    (∀ (req : GuardarUbicacionReq) (db : DB) (geo : List GeoEntry)
      (now : Nat) (idU idA : String) (err : Option String),
      (req.id_usuario.truthy && req.latitud.truthy && req.longitud.truthy
        && req.id_gravedad.truthy && req.mensaje.truthy) = false →
      (guardarUbicacion req db geo now idU idA err).status = 400 ∧
      (guardarUbicacion req db geo now idU idA err).db = db ∧
      (guardarUbicacion req db geo now idU idA err).sent = []) ∧
    (∀ (req : ActualizarSelReq) (db : DB) (newDocId : String)
      (err : Option String),
      (strTruthy req.id_persona = false ∨ req.tipo = JsVal.undef) →
      (actualizarUbicacionSeleccion req db newDocId err).status = 400 ∧
      (actualizarUbicacionSeleccion req db newDocId err).db = db ∧
      (actualizarUbicacionSeleccion req db newDocId err).written = none) ∧
    (∀ (q : ObtenerSelReq) (db : DB) (err : Option String),
      strTruthy q.id_persona = false →
      (obtenerUbicacionSeleccion q db err).status = 400 ∧
      (obtenerUbicacionSeleccion q db err).db = db) ∧
    (∀ (q : ObtenerSelReq) (db : DB),
      strTruthy q.id_persona = true →
      jsLooseEqOne q.persona_buscar = true →
      strTruthy q.id_persona_buscar = false →
      (obtenerUbicacionSeleccion q db none).status = 200 ∧
      (obtenerUbicacionSeleccion q db none).db = db) ∧
    (∀ (req : EditarClaveReq) (db : DB) (err : Option String),
      req.id_clave = none →
      (editarClave req db err).status = 500 ∧
      (editarClave req db err).db = db) := by
  refine ⟨?_, ?_, ?_, ?_, ?_⟩
  · intro req db geo now idU idA err hmiss
    unfold guardarUbicacion
    simp [hmiss]
  · intro req db newDocId err hmiss
    rcases hmiss with h | h <;> simp [actualizarUbicacionSeleccion, h]
  · intro q db err hmiss
    simp [obtenerUbicacionSeleccion, hmiss]
  · intro q db hidp hpb hipb
    simp [obtenerUbicacionSeleccion, hidp, hpb, hipb]
  · intro req db err hnone
    simp [editarClave, hnone, validDocPath]

/-- C3 counterexample: with persona_buscar active and id_persona_buscar
missing — a field the handler itself declares obligatory in that case —
GET obtener-ubicacion-seleccion answers 200, not 400. -/
theorem c3_missing_required_fields_counterexample :
    (obtenerUbicacionSeleccion ⟨some "p1", some "1", none, none, none, none⟩
      DB.empty none).status = 200 ∧
    ¬ (obtenerUbicacionSeleccion ⟨some "p1", some "1", none, none, none, none⟩
      DB.empty none).status = 400 := by decide

/-- Witness for C3 at concrete requests, one per conjunct. -/
theorem c3_missing_required_fields_witness :
    (guardarUbicacion ⟨JsVal.undef, JsVal.num 1, JsVal.num 1, JsVal.str "gv", JsVal.str "m"⟩
      DB.empty [] 0 "ub" "al" none).status = 400 ∧
    (actualizarUbicacionSeleccion ⟨none, JsVal.num 1, none, none⟩
      DB.empty "s" none).status = 400 ∧
    (obtenerUbicacionSeleccion ⟨none, none, none, none, none, none⟩
      DB.empty none).status = 400 ∧
    (obtenerUbicacionSeleccion ⟨some "p2", some "1", none, none, none, none⟩
      dbContactos none).status = 200 ∧
    (editarClave ⟨none, some "gv", none, none⟩ DB.empty none).status = 500 :=
  ⟨(c3_missing_required_fields.1 _ DB.empty [] 0 "ub" "al" none (by decide)).1,
   (c3_missing_required_fields.2.1 _ DB.empty "s" none (Or.inl (by decide))).1,
   (c3_missing_required_fields.2.2.1 _ DB.empty none (by decide)).1,
   (c3_missing_required_fields.2.2.2.1 _ dbContactos (by decide) (by decide) (by decide)).1,
   (c3_missing_required_fields.2.2.2.2 _ DB.empty none rfl).1⟩

/-! ## C4: behaviour on unexpected failures -/

/-- C4 (amended): when an unexpected failure is thrown inside a handler
on a well-formed request, the modelled routes answer status 500 — with
the exception of POST register, which answers status 200 when the
account-creation call fails — and the handlers that serialize
`error.message` include the caught message in the body, while POST
crear-grupo, POST guardar-contacto, PUT editar-grupo and DELETE
borrar-contacto attach the raw Error object (serialized as an empty
JSON object) and GET user omits the error entirely. -/
theorem c4_unexpected_failure_statuses :
    (∀ (req : GuardarUbicacionReq) (db : DB) (geo : List GeoEntry)
      (now : Nat) (idU idA m : String),
      (req.id_usuario.truthy && req.latitud.truthy && req.longitud.truthy
        && req.id_gravedad.truthy && req.mensaje.truthy) = true →
      (guardarUbicacion req db geo now idU idA (some m)).status = 500 ∧
      (guardarUbicacion req db geo now idU idA (some m)).errBody = .msgText m) ∧
    (∀ (g : Option String) (db : DB) (m : String), strTruthy g = true →
      (eliminarGrupo g db (some m)).status = 500 ∧
      (eliminarGrupo g db (some m)).errBody = .msgText m) ∧
    (∀ (req : EditarClaveReq) (db : DB) (m idc : String),
      req.id_clave = some idc → idc ≠ "" →
      (editarClave req db (some m)).status = 500 ∧
      (editarClave req db (some m)).errBody = .msgText m) ∧
    (∀ (s : String) (db : DB) (m : String), s ≠ "" →
      (eliminarMensaje (some s) db (some m)).status = 500 ∧
      (eliminarMensaje (some s) db (some m)).errBody = .msgText m) ∧
    (∀ (u : Option String) (db : DB) (m : String), strTruthy u = true →
      (obtenerClavesUsuario u db (some m)).status = 500 ∧
      (obtenerClavesUsuario u db (some m)).errBody = .msgText m) ∧
    (∀ (q : ObtenerSelReq) (db : DB) (m : String),
      strTruthy q.id_persona = true →
      (obtenerUbicacionSeleccion q db (some m)).status = 500 ∧
      (obtenerUbicacionSeleccion q db (some m)).errBody = .msgText m) ∧
    (∀ (req : ActualizarSelReq) (db : DB) (newDocId m : String)
      (p : String) (t : Int), req.id_persona = some p → p ≠ "" →
      req.tipo = JsVal.num t → (t = 1 ∨ t = 2 ∨ t = 3) →
      (actualizarUbicacionSeleccion req db newDocId (some m)).status = 500 ∧
      (actualizarUbicacionSeleccion req db newDocId (some m)).errBody = .msgText m) ∧
    (∀ (req : CrearGrupoReq) (db : DB) (bucket : String) (now : Nat)
      (idG idGP m : String),
      (strTruthy req.nombre_grupo && strTruthy req.id_usuario_creador
        && strTruthy req.color_hex) = true →
      (crearGrupo req db bucket now idG idGP (some m)).status = 500 ∧
      (crearGrupo req db bucket now idG idGP (some m)).errBody = .emptyObj) ∧
    (∀ (req : GuardarContactoReq) (db : DB) (idC m : String),
      (strTruthy req.nombres && strTruthy req.apellidos && strTruthy req.celular
        && strTruthy req.email && strTruthy req.id_usuario) = true →
      (guardarContacto req db idC (some m)).status = 500 ∧
      (guardarContacto req db idC (some m)).errBody = .emptyObj) ∧
    (∀ (req : EditarGrupoReq) (db : DB) (bucket : String) (now : Nat)
      (m : String),
      (strTruthy req.id_grupo && strTruthy req.nombre_grupo
        && strTruthy req.color_hex && strTruthy req.descripcion) = true →
      (editarGrupo req db bucket now (some m)).status = 500 ∧
      (editarGrupo req db bucket now (some m)).errBody = .emptyObj) ∧
    (∀ (c : Option String) (db : DB) (m : String), strTruthy c = true →
      (borrarContacto c db (some m)).status = 500 ∧
      (borrarContacto c db (some m)).errBody = .emptyObj) ∧
    (∀ (u : Option String) (db : DB) (m : String), strTruthy u = true →
      (getUser u db (some m)).status = 500 ∧
      (getUser u db (some m)).errBody = .absent) ∧
    (∀ (req : RegisterReq) (db : DB) (uid idM m : String),
      (strTruthy req.nombre && strTruthy req.apellido && strTruthy req.correo
        && strTruthy req.password && strTruthy req.fecha_nacimiento
        && strTruthy req.direccion && strTruthy req.id_comuna
        && strTruthy req.id_genero) = true →
      (registerUsuario req db uid idM (some m) none).status = 200 ∧
      (registerUsuario req db uid idM (some m) none).errBody = .msgText m) ∧
    (∀ (req : RegisterReq) (db : DB) (uid idM m : String),
      (strTruthy req.nombre && strTruthy req.apellido && strTruthy req.correo
        && strTruthy req.password && strTruthy req.fecha_nacimiento
        && strTruthy req.direccion && strTruthy req.id_comuna
        && strTruthy req.id_genero) = true →
      (registerUsuario req db uid idM none (some m)).status = 500 ∧
      (registerUsuario req db uid idM none (some m)).errBody = .msgText m) := by
  refine ⟨?_, ?_, ?_, ?_, ?_, ?_, ?_, ?_, ?_, ?_, ?_, ?_, ?_, ?_⟩
  · intro req db geo now idU idA m hval
    unfold guardarUbicacion
    simp [hval]
  · intro g db m hval
    simp [eliminarGrupo, hval]
  · intro req db m idc hsome hne
    simp [editarClave, hsome, validDocPath, hne]
  · intro s db m hne
    simp [eliminarMensaje, validDocPath, hne]
  · intro u db m hval
    simp [obtenerClavesUsuario, hval]
  · intro q db m hval
    simp [obtenerUbicacionSeleccion, hval]
  · intro req db newDocId m p t hid hp ht h123
    rcases h123 with h | h | h <;> subst h <;>
      simp [actualizarUbicacionSeleccion, hid, ht, strTruthy, hp]
  · intro req db bucket now idG idGP m hval
    unfold crearGrupo
    simp [hval]
  · intro req db idC m hval
    unfold guardarContacto
    simp [hval]
  · intro req db bucket now m hval
    unfold editarGrupo
    simp [hval]
  · intro c db m hval
    simp [borrarContacto, hval]
  · intro u db m hval
    simp [getUser, hval]
  · intro req db uid idM m hval
    unfold registerUsuario
    simp [hval]
  · intro req db uid idM m hval
    unfold registerUsuario
    simp [hval]

/-- C4 counterexample: a caught failure of the account-creation call in
POST register is answered with status 200, not 500. -/
theorem c4_unexpected_failure_counterexample :
    (registerUsuario
      ⟨some "Ana", some "Diaz", some "ana@x.cl", some "pw", some "1990-01-01",
        none, none, some "Calle 1", some "com1", JsVal.num 1, some "gen1", none⟩
      DB.empty "uid1" "msj1" (some "The email address is already in use") none).status = 200 ∧
    ¬ (registerUsuario
      ⟨some "Ana", some "Diaz", some "ana@x.cl", some "pw", some "1990-01-01",
        none, none, some "Calle 1", some "com1", JsVal.num 1, some "gen1", none⟩
      DB.empty "uid1" "msj1" (some "The email address is already in use") none).status = 500 := by
  decide

/-- Witness for C4 at concrete requests, one per conjunct. -/
theorem c4_unexpected_failure_statuses_witness :
    (guardarUbicacion ⟨.str "u1", .num 1, .num 2, .str "gv", .str "m"⟩
      DB.empty [] 0 "ub" "al" (some "boom")).status = 500 ∧
    (eliminarGrupo (some "g1") DB.empty (some "boom")).status = 500 ∧
    (editarClave ⟨some "k1", none, none, none⟩ DB.empty (some "boom")).status = 500 ∧
    (eliminarMensaje (some "m1") DB.empty (some "boom")).status = 500 ∧
    (obtenerClavesUsuario (some "u1") DB.empty (some "boom")).status = 500 ∧
    (obtenerUbicacionSeleccion ⟨some "p1", none, none, none, none, none⟩
      DB.empty (some "boom")).status = 500 ∧
    (actualizarUbicacionSeleccion ⟨some "p1", JsVal.num 3, none, none⟩
      DB.empty "s" (some "boom")).status = 500 ∧
    (crearGrupo ⟨some "G", some "u1", some "#fff", none, none⟩
      DB.empty "b" 0 "g1" "gp1" (some "boom")).status = 500 ∧
    (guardarContacto ⟨some "A", some "B", some "9", some "a@x", some "u1"⟩
      DB.empty "c1" (some "boom")).status = 500 ∧
    (editarGrupo ⟨some "g1", some "G", some "#fff", some "d", none⟩
      DB.empty "b" 0 (some "boom")).status = 500 ∧
    (borrarContacto (some "c1") DB.empty (some "boom")).status = 500 ∧
    (getUser (some "u1") DB.empty (some "boom")).status = 500 ∧
    (registerUsuario ⟨some "A", some "B", some "a@x", some "pw", some "f",
      none, none, some "d", some "c", JsVal.num 1, some "g", none⟩
      DB.empty "u" "m" (some "boom") none).status = 200 ∧
    (registerUsuario ⟨some "A", some "B", some "a@x", some "pw", some "f",
      none, none, some "d", some "c", JsVal.num 1, some "g", none⟩
      DB.empty "u" "m" none (some "boom")).status = 500 :=
  ⟨(c4_unexpected_failure_statuses.1 _ DB.empty [] 0 "ub" "al" "boom" (by decide)).1,
   (c4_unexpected_failure_statuses.2.1 _ DB.empty "boom" (by decide)).1,
   (c4_unexpected_failure_statuses.2.2.1 _ DB.empty "boom" "k1" rfl (by decide)).1,
   (c4_unexpected_failure_statuses.2.2.2.1 "m1" DB.empty "boom" (by decide)).1,
   (c4_unexpected_failure_statuses.2.2.2.2.1 _ DB.empty "boom" (by decide)).1,
   (c4_unexpected_failure_statuses.2.2.2.2.2.1 _ DB.empty "boom" (by decide)).1,
   (c4_unexpected_failure_statuses.2.2.2.2.2.2.1 _ DB.empty "s" "boom" "p1" 3
      rfl (by decide) rfl (by decide)).1,
   (c4_unexpected_failure_statuses.2.2.2.2.2.2.2.1 _ DB.empty "b" 0 "g1" "gp1" "boom" (by decide)).1,
   (c4_unexpected_failure_statuses.2.2.2.2.2.2.2.2.1 _ DB.empty "c1" "boom" (by decide)).1,
   (c4_unexpected_failure_statuses.2.2.2.2.2.2.2.2.2.1 _ DB.empty "b" 0 "boom" (by decide)).1,
   (c4_unexpected_failure_statuses.2.2.2.2.2.2.2.2.2.2.1 _ DB.empty "boom" (by decide)).1,
   (c4_unexpected_failure_statuses.2.2.2.2.2.2.2.2.2.2.2.1 _ DB.empty "boom" (by decide)).1,
   (c4_unexpected_failure_statuses.2.2.2.2.2.2.2.2.2.2.2.2.1 _ DB.empty "u" "m" "boom" (by decide)).1,
   (c4_unexpected_failure_statuses.2.2.2.2.2.2.2.2.2.2.2.2.2 _ DB.empty "u" "m" "boom" (by decide)).1⟩

/-! ## C5: soft delete in DELETE /eliminar-grupo -/

/-- C5: DELETE eliminar-grupo never removes the GRUPO document: it only
sets estado to false on the targeted group (every other field and every
other group unchanged), and in the same request clears id_grupo and
grupo_buscar in exactly the UBICACION_SELECCION documents that referenced
the group, leaving their other fields, the other documents and every
other collection unchanged. -/
theorem c5_eliminarGrupo_soft_delete
    (g : String) (db : DB) (hg : g ≠ "")
    (gOld : Grupo) (hfound : lookupDoc db.grupo g = some gOld) :
    (eliminarGrupo (some g) db none).status = 200 ∧
    (eliminarGrupo (some g) db none).db.grupo.length = db.grupo.length ∧
    (∀ p ∈ db.grupo, p.1 = g →
      (p.1, { p.2 with estado := false }) ∈ (eliminarGrupo (some g) db none).db.grupo) ∧
    (∀ p ∈ db.grupo, p.1 ≠ g → p ∈ (eliminarGrupo (some g) db none).db.grupo) ∧
    (∀ p ∈ db.ubicacionSeleccion, p.2.id_grupo = some g →
      (p.1, { p.2 with id_grupo := none, grupo_buscar := 0 }) ∈
        (eliminarGrupo (some g) db none).db.ubicacionSeleccion) ∧
    (∀ p ∈ db.ubicacionSeleccion, p.2.id_grupo ≠ some g →
      p ∈ (eliminarGrupo (some g) db none).db.ubicacionSeleccion) ∧
    (eliminarGrupo (some g) db none).db.ubicacionSeleccion.length =
      db.ubicacionSeleccion.length ∧
    (eliminarGrupo (some g) db none).db.ubicacion = db.ubicacion ∧
    (eliminarGrupo (some g) db none).db.alerta = db.alerta ∧
    (eliminarGrupo (some g) db none).db.alertaDerivada = db.alertaDerivada ∧
    (eliminarGrupo (some g) db none).db.contacto = db.contacto ∧
    (eliminarGrupo (some g) db none).db.grupoPersona = db.grupoPersona ∧
    (eliminarGrupo (some g) db none).db.clave = db.clave ∧
    (eliminarGrupo (some g) db none).db.mensaje = db.mensaje ∧
    (eliminarGrupo (some g) db none).db.gravedad = db.gravedad ∧
    (eliminarGrupo (some g) db none).db.persona = db.persona ∧
    (eliminarGrupo (some g) db none).db.perfil = db.perfil := by
  have hrun : eliminarGrupo (some g) db none =
      { status := 200
        message := "Grupo eliminado exitosamente (estado cambiado a false) y ubicaciones seleccionadas actualizadas."
        errBody := .absent
        db := { db with
                  grupo := updateDoc db.grupo g (fun gr => { gr with estado := false })
                  ubicacionSeleccion := db.ubicacionSeleccion.map (fun p =>
                    if p.2.id_grupo == some g then
                      (p.1, { p.2 with id_grupo := none, grupo_buscar := 0 })
                    else p) } } := by
    simp [eliminarGrupo, strTruthy, hg, hfound]
  rw [hrun]
  refine ⟨rfl, ?_, ?_, ?_, ?_, ?_, ?_, rfl, rfl, rfl, rfl, rfl, rfl, rfl, rfl, rfl, rfl⟩
  · simp [updateDoc]
  · intro p hp hpg
    exact List.mem_map.mpr ⟨p, hp, by simp [updateDoc, hpg]⟩
  · intro p hp hpg
    refine List.mem_map.mpr ⟨p, hp, ?_⟩
    simp only [updateDoc]
    simp [hpg]
  · intro p hp hpg
    exact List.mem_map.mpr ⟨p, hp, by simp [hpg]⟩
  · intro p hp hpg
    exact List.mem_map.mpr ⟨p, hp, by simp [hpg]⟩
  · simp

/-- Witness for C5 on the fixture with group g1 and two
UBICACION_SELECCION documents, one referencing g1. -/
theorem c5_eliminarGrupo_soft_delete_witness :
    (eliminarGrupo (some "g1") dbGrupoSel none).status = 200 ∧
    (eliminarGrupo (some "g1") dbGrupoSel none).db.grupo.length =
      dbGrupoSel.grupo.length ∧
    (∀ p ∈ dbGrupoSel.grupo, p.1 = "g1" →
      (p.1, { p.2 with estado := false }) ∈ (eliminarGrupo (some "g1") dbGrupoSel none).db.grupo) ∧
    (∀ p ∈ dbGrupoSel.grupo, p.1 ≠ "g1" →
      p ∈ (eliminarGrupo (some "g1") dbGrupoSel none).db.grupo) ∧
    (∀ p ∈ dbGrupoSel.ubicacionSeleccion, p.2.id_grupo = some "g1" →
      (p.1, { p.2 with id_grupo := none, grupo_buscar := 0 }) ∈
        (eliminarGrupo (some "g1") dbGrupoSel none).db.ubicacionSeleccion) ∧
    (∀ p ∈ dbGrupoSel.ubicacionSeleccion, p.2.id_grupo ≠ some "g1" →
      p ∈ (eliminarGrupo (some "g1") dbGrupoSel none).db.ubicacionSeleccion) ∧
    (eliminarGrupo (some "g1") dbGrupoSel none).db.ubicacionSeleccion.length =
      dbGrupoSel.ubicacionSeleccion.length ∧
    (eliminarGrupo (some "g1") dbGrupoSel none).db.ubicacion = dbGrupoSel.ubicacion ∧
    (eliminarGrupo (some "g1") dbGrupoSel none).db.alerta = dbGrupoSel.alerta ∧
    (eliminarGrupo (some "g1") dbGrupoSel none).db.alertaDerivada = dbGrupoSel.alertaDerivada ∧
    (eliminarGrupo (some "g1") dbGrupoSel none).db.contacto = dbGrupoSel.contacto ∧
    (eliminarGrupo (some "g1") dbGrupoSel none).db.grupoPersona = dbGrupoSel.grupoPersona ∧
    (eliminarGrupo (some "g1") dbGrupoSel none).db.clave = dbGrupoSel.clave ∧
    (eliminarGrupo (some "g1") dbGrupoSel none).db.mensaje = dbGrupoSel.mensaje ∧
    (eliminarGrupo (some "g1") dbGrupoSel none).db.gravedad = dbGrupoSel.gravedad ∧
    (eliminarGrupo (some "g1") dbGrupoSel none).db.persona = dbGrupoSel.persona ∧
    (eliminarGrupo (some "g1") dbGrupoSel none).db.perfil = dbGrupoSel.perfil :=
  c5_eliminarGrupo_soft_delete "g1" dbGrupoSel (by decide)
    ⟨"g1", "Amigas", "#ff5733", some "salidas", some "urlvieja", true, "u1"⟩ (by decide)

/-! ## C6: the denormalized join of GET /obtener-claves-usuario -/

/-- C6: GET obtener-claves-usuario answers one entry per CLAVE of the
requested user, each assembled from three collections (palabra, the
referenced MENSAJE text and the referenced GRAVEDAD description), with
the literal fallbacks Mensaje no encontrado and Gravedad no encontrada
for dangling references, and the request succeeds with status 200. -/
theorem c6_obtenerClaves_join
    (u : String) (db : DB) (hu : u ≠ "")
    (hne : db.clave.filter (fun p => p.2.id_usuario == u) ≠ []) :
    (obtenerClavesUsuario (some u) db none).status = 200 ∧
    (obtenerClavesUsuario (some u) db none).claves.length =
      (db.clave.filter (fun p => p.2.id_usuario == u)).length ∧
    (∀ p ∈ db.clave, p.2.id_usuario = u →
      claveDetalleOf db p.2 ∈ (obtenerClavesUsuario (some u) db none).claves) ∧
    (∀ d ∈ (obtenerClavesUsuario (some u) db none).claves,
      ∃ p ∈ db.clave, p.2.id_usuario = u ∧ d = claveDetalleOf db p.2) ∧
    (∀ c : Clave,
      (∀ md, lookupDoc db.mensaje c.id_mensaje = some md →
        (claveDetalleOf db c).mensaje = md.mensaje) ∧
      (lookupDoc db.mensaje c.id_mensaje = none →
        (claveDetalleOf db c).mensaje = "Mensaje no encontrado") ∧
      (∀ gd, lookupDoc db.gravedad c.id_gravedad = some gd →
        (claveDetalleOf db c).gravedad = gd.descripcion) ∧
      (lookupDoc db.gravedad c.id_gravedad = none →
        (claveDetalleOf db c).gravedad = "Gravedad no encontrada") ∧
      (claveDetalleOf db c).palabra = c.palabra ∧
      (claveDetalleOf db c).id_clave = c.id_clave) := by
  have hempty : (db.clave.filter (fun p => p.2.id_usuario == u)).isEmpty = false := by
    cases hcase : (db.clave.filter (fun p => p.2.id_usuario == u)) with
    | nil => exact absurd hcase hne
    | cons a t => simp [List.isEmpty]
  have hrun : obtenerClavesUsuario (some u) db none =
      { status := 200, message := "", errBody := .absent, db := db
        claves := (db.clave.filter (fun p => p.2.id_usuario == u)).map
          (fun p => claveDetalleOf db p.2) } := by
    simp [obtenerClavesUsuario, strTruthy, hu, hempty]
  rw [hrun]
  refine ⟨rfl, by simp, ?_, ?_, ?_⟩
  · intro p hp hpu
    exact List.mem_map.mpr ⟨p, List.mem_filter.mpr ⟨hp, by simp [hpu]⟩, rfl⟩
  · intro d hd
    rcases List.mem_map.mp hd with ⟨p, hp, hform⟩
    rcases List.mem_filter.mp hp with ⟨hmem, hbeq⟩
    exact ⟨p, hmem, by simpa using hbeq, hform.symm⟩
  · intro c
    refine ⟨?_, ?_, ?_, ?_, rfl, rfl⟩
    · intro md hmd; simp [claveDetalleOf, hmd]
    · intro hmd; simp [claveDetalleOf, hmd]
    · intro gd hgd; simp [claveDetalleOf, hgd]
    · intro hgd; simp [claveDetalleOf, hgd]

/-- Witness for C6 on the fixture where user u1 has one clave with live
references and one with dangling references. -/
theorem c6_obtenerClaves_join_witness :
    (obtenerClavesUsuario (some "u1") dbClaves none).status = 200 ∧
    (obtenerClavesUsuario (some "u1") dbClaves none).claves.length =
      (dbClaves.clave.filter (fun p => p.2.id_usuario == "u1")).length ∧
    (∀ p ∈ dbClaves.clave, p.2.id_usuario = "u1" →
      claveDetalleOf dbClaves p.2 ∈ (obtenerClavesUsuario (some "u1") dbClaves none).claves) ∧
    (∀ d ∈ (obtenerClavesUsuario (some "u1") dbClaves none).claves,
      ∃ p ∈ dbClaves.clave, p.2.id_usuario = "u1" ∧ d = claveDetalleOf dbClaves p.2) ∧
    (∀ c : Clave,
      (∀ md, lookupDoc dbClaves.mensaje c.id_mensaje = some md →
        (claveDetalleOf dbClaves c).mensaje = md.mensaje) ∧
      (lookupDoc dbClaves.mensaje c.id_mensaje = none →
        (claveDetalleOf dbClaves c).mensaje = "Mensaje no encontrado") ∧
      (∀ gd, lookupDoc dbClaves.gravedad c.id_gravedad = some gd →
        (claveDetalleOf dbClaves c).gravedad = gd.descripcion) ∧
      (lookupDoc dbClaves.gravedad c.id_gravedad = none →
        (claveDetalleOf dbClaves c).gravedad = "Gravedad no encontrada") ∧
      (claveDetalleOf dbClaves c).palabra = c.palabra ∧
      (claveDetalleOf dbClaves c).id_clave = c.id_clave) :=
  c6_obtenerClaves_join "u1" dbClaves (by decide) (by decide)

/-! ## C7: behaviour on missing documents -/

theorem isEmpty_false_of_ne_nil {α : Type} {l : List α} (h : l ≠ []) :
    l.isEmpty = false := by
  cases l with
  | nil => exact absurd rfl h
  | cons a t => rfl

/-- C7: whenever a requested document of one of the six kinds the claim
names (group, clave, mensaje, contacto, gravedad, alerta) does not
exist — or a query for such documents matches none — the handler answers
status 404 or 200 together with a message, never a 5xx, and performs no
database write.  One conjunct per not-found path of every route handler
in the repository that looks up documents of these kinds: the clave
routes (editar, eliminar, obtener-claves-usuario), the mensaje routes
(eliminar, editar, obtener-mensajes), the contacto routes of both
alerta.js variants (editar, borrar, listings), the grupo routes
(eliminar, editar, grupo-completo, the listings), the gravedad routes
(admin editar and cambiar-estado, both listings), the alerta routes
(obtener-alertas of both variants, listar-alertas-hoy, derivar-alerta
and the four alert metrics), plus GET user for its PERSONA lookup. -/
theorem c7_not_found_no_write :
    (∀ (req : EditarClaveReq) (db : DB) (idc : String),
      req.id_clave = some idc → idc ≠ "" → lookupDoc db.clave idc = none →
      (editarClave req db none).status = 404 ∧
      (editarClave req db none).db = db) ∧
    (∀ (idc : String) (db : DB), idc ≠ "" → lookupDoc db.clave idc = none →
      (eliminarClave (some idc) db none).status = 404 ∧
      (eliminarClave (some idc) db none).db = db) ∧
    (∀ (u : String) (db : DB), u ≠ "" →
      db.clave.filter (fun p => p.2.id_usuario == u) = [] →
      (obtenerClavesUsuario (some u) db none).status = 404 ∧
      (obtenerClavesUsuario (some u) db none).db = db) ∧
    (∀ (s : String) (db : DB), s ≠ "" → lookupDoc db.mensaje s = none →
      (eliminarMensaje (some s) db none).status = 404 ∧
      (eliminarMensaje (some s) db none).db = db) ∧
    (∀ (idm txt : String) (db : DB), idm ≠ "" → txt ≠ "" →
      lookupDoc db.mensaje idm = none →
      (editarMensaje (some idm) (some txt) db none).status = 404 ∧
      (editarMensaje (some idm) (some txt) db none).db = db) ∧
    (∀ (u : String) (db : DB), u ≠ "" →
      db.mensaje.filter (fun p => p.2.id_persona == u) = [] →
      (obtenerMensajes (some u) db none).status = 404 ∧
      (obtenerMensajes (some u) db none).db = db) ∧
    (∀ (c : String) (db : DB), c ≠ "" → lookupDoc db.contacto c = none →
      (borrarContacto (some c) db none).status = 404 ∧
      (borrarContacto (some c) db none).db = db) ∧
    (∀ (c : String) (db : DB), c ≠ "" → lookupDoc db.contacto c = none →
      (borrarContactoUsuario (some c) db none).status = 200 ∧
      (borrarContactoUsuario (some c) db none).db = db) ∧
    (∀ (req : EditarContactoReq) (db : DB) (idc : String),
      (strTruthy req.nombres && strTruthy req.apellidos
        && strTruthy req.celular && strTruthy req.email) = true →
      req.id_contacto = some idc → idc ≠ "" →
      lookupDoc db.contacto idc = none →
      (editarContacto req db none).status = 404 ∧
      (editarContacto req db none).db = db) ∧
    (∀ (req : EditarContactoReq) (db : DB) (idc : String),
      (strTruthy req.nombres && strTruthy req.apellidos
        && strTruthy req.celular && strTruthy req.email) = true →
      req.id_contacto = some idc → idc ≠ "" →
      lookupDoc db.contacto idc = none →
      (editarContactoUsuario req db none).status = 200 ∧
      (editarContactoUsuario req db none).db = db) ∧
    (∀ (u : String) (db : DB), u ≠ "" →
      db.contacto.filter (fun p => p.2.id_usuario == u) = [] →
      (verContactos (some u) db none).status = 404 ∧
      (verContactos (some u) db none).db = db) ∧
    (∀ (u : String) (db : DB), u ≠ "" →
      db.contacto.filter (fun p => p.2.id_usuario == u) = [] →
      (verContactosUsuario (some u) db none).status = 200 ∧
      (verContactosUsuario (some u) db none).db = db) ∧
    (∀ (g : String) (db : DB), g ≠ "" → lookupDoc db.grupo g = none →
      (eliminarGrupo (some g) db none).status = 200 ∧
      (eliminarGrupo (some g) db none).db = db) ∧
    (∀ (req : EditarGrupoReq) (db : DB) (bucket : String) (now : Nat)
      (g : String),
      (strTruthy req.id_grupo && strTruthy req.nombre_grupo
        && strTruthy req.color_hex && strTruthy req.descripcion) = true →
      req.id_grupo = some g → lookupDoc db.grupo g = none →
      (editarGrupo req db bucket now none).status = 200 ∧
      (editarGrupo req db bucket now none).db = db) ∧
    (∀ (g : String) (db : DB), g ≠ "" → lookupDoc db.grupo g = none →
      (grupoCompleto (some g) db none).status = 200 ∧
      (grupoCompleto (some g) db none).db = db) ∧
    (∀ (g : String) (db : DB) (gd : Grupo), g ≠ "" →
      lookupDoc db.grupo g = some gd →
      db.grupoPersona.filter (fun p => p.2.id_grupo == g) = [] →
      (grupoCompleto (some g) db none).status = 200 ∧
      (grupoCompleto (some g) db none).db = db) ∧
    (∀ (u : String) (db : DB),
      db.grupo.filter (fun p => p.2.id_usuario == u && p.2.estado) = [] →
      (verGruposCreados (some u) db none).status = 200 ∧
      (verGruposCreados (some u) db none).db = db) ∧
    (∀ (u : String) (db : DB),
      db.grupoPersona.filter (fun p => p.2.id_usuario == u) = [] →
      (verGruposUsuario (some u) db none).status = 200 ∧
      (verGruposUsuario (some u) db none).db = db) ∧
    (∀ (u : String) (db : DB),
      db.grupoPersona.filter (fun p => p.2.id_usuario == u) ≠ [] →
      ¬ 10 < ((db.grupoPersona.filter (fun p => p.2.id_usuario == u)).map
        (fun p => p.2.id_grupo)).length →
      db.grupo.filter (fun p =>
        ((db.grupoPersona.filter (fun q => q.2.id_usuario == u)).map
          (fun q => q.2.id_grupo)).contains p.1 && p.2.estado) = [] →
      (verGruposUsuario (some u) db none).status = 200 ∧
      (verGruposUsuario (some u) db none).db = db) ∧
    (∀ (idg d : String) (db : DB), idg ≠ "" → d ≠ "" →
      lookupDoc db.gravedad idg = none →
      (editarGravedad (some idg) (some d) db none).status = 404 ∧
      (editarGravedad (some idg) (some d) db none).db = db) ∧
    (∀ (idg : String) (b : Bool) (db : DB), idg ≠ "" →
      lookupDoc db.gravedad idg = none →
      (cambiarEstadoGravedad (some idg) (some b) db none).status = 404 ∧
      (cambiarEstadoGravedad (some idg) (some b) db none).db = db) ∧
    (∀ (db : DB), db.gravedad = [] →
      (verGravedades db none).status = 404 ∧
      (verGravedades db none).db = db) ∧
    (∀ (db : DB), db.gravedad = [] →
      (listarGravedades db none).status = 404 ∧
      (listarGravedades db none).db = db) ∧
    (∀ (db : DB), db.alerta = [] →
      (obtenerAlertas none db none).status = 404 ∧
      (obtenerAlertas none db none).db = db) ∧
    (∀ (s : String) (db : DB), s ≠ "" →
      db.alerta.filter (fun p => p.2.id_alerta == s) = [] →
      (obtenerAlertas (some s) db none).status = 404 ∧
      (obtenerAlertas (some s) db none).db = db) ∧
    (∀ (s : String) (db : DB), s ≠ "" →
      db.alerta.filter (fun p => p.2.id_alerta == s) = [] →
      (obtenerAlertasUsuario (some s) db none).status = 200 ∧
      (obtenerAlertasUsuario (some s) db none).db = db) ∧
    (∀ (db : DB) (inicio fin : Nat),
      db.alerta.filter
        (fun p => decide (inicio ≤ p.2.fecha) && decide (p.2.fecha ≤ fin)) = [] →
      (listarAlertasHoy db inicio fin none).status = 404 ∧
      (listarAlertasHoy db inicio fin none).db = db) ∧
    (∀ (req : DerivarAlertaReq) (db : DB) (newId ida : String),
      (strTruthy req.id_alerta && strTruthy req.id_departamento
        && strTruthy req.id_funcionario) = true →
      req.id_alerta = some ida → lookupDoc db.alerta ida = none →
      (derivarAlerta req db newId none).status = 404 ∧
      (derivarAlerta req db newId none).db = db) ∧
    (∀ (db : DB), db.alerta = [] →
      (alertasDerivadasMetrica db none).status = 200 ∧
      (alertasDerivadasMetrica db none).db = db) ∧
    (∀ (db : DB), db.alerta = [] →
      (alertasPorComuna db none).status = 200 ∧
      (alertasPorComuna db none).db = db) ∧
    (∀ (db : DB) (inicio fin : Nat),
      db.alerta.filter
        (fun p => decide (inicio ≤ p.2.fecha) && decide (p.2.fecha < fin)) = [] →
      (alertasMesActualPorComuna db inicio fin none).status = 200 ∧
      (alertasMesActualPorComuna db inicio fin none).db = db) ∧
    (∀ (db : DB) (mk : Nat → String), db.alerta = [] →
      (alertasPorMes db mk none).status = 200 ∧
      (alertasPorMes db mk none).db = db) ∧
    (∀ (u : String) (db : DB), u ≠ "" → lookupDoc db.persona u = none →
      (getUser (some u) db none).status = 200 ∧
      (getUser (some u) db none).db = db) := by
  refine ⟨?_, ?_, ?_, ?_, ?_, ?_, ?_, ?_, ?_, ?_, ?_, ?_, ?_, ?_, ?_, ?_,
    ?_, ?_, ?_, ?_, ?_, ?_, ?_, ?_, ?_, ?_, ?_, ?_, ?_, ?_, ?_, ?_, ?_⟩
  · intro req db idc hsome hne hmiss
    simp [editarClave, validDocPath, hsome, hne, hmiss]
  · intro idc db hne hmiss
    simp [eliminarClave, validDocPath, hne, hmiss]
  · intro u db hne hempty
    simp [obtenerClavesUsuario, strTruthy, hne, hempty]
  · intro s db hne hmiss
    simp [eliminarMensaje, validDocPath, hne, hmiss]
  · intro idm txt db h1 h2 hmiss
    simp [editarMensaje, strTruthy, h1, h2, hmiss]
  · intro u db hne hempty
    simp [obtenerMensajes, strTruthy, hne, hempty]
  · intro c db hne hmiss
    simp [borrarContacto, strTruthy, hne, hmiss]
  · intro c db hne hmiss
    simp [borrarContactoUsuario, strTruthy, hne, hmiss]
  · intro req db idc hval hsome hne hmiss
    unfold editarContacto
    simp [hval, validDocPath, hsome, hne, hmiss]
  · intro req db idc hval hsome hne hmiss
    unfold editarContactoUsuario
    simp [hval, validDocPath, hsome, hne, hmiss]
  · intro u db hne hempty
    simp [verContactos, strTruthy, hne, hempty]
  · intro u db hne hempty
    simp [verContactosUsuario, strTruthy, hne, hempty]
  · intro g db hne hmiss
    simp [eliminarGrupo, strTruthy, hne, hmiss]
  · intro req db bucket now g hval hsome hmiss
    have h' := hval
    simp only [Bool.and_eq_true] at h'
    obtain ⟨⟨⟨h1, h2⟩, h3⟩, h4⟩ := h'
    rw [hsome] at h1
    unfold editarGrupo
    simp [hsome, h1, h2, h3, h4, hmiss]
  · intro g db hne hmiss
    simp [grupoCompleto, validDocPath, hne, hmiss]
  · intro g db gd hne hfound hempty
    simp [grupoCompleto, validDocPath, hne, hfound, hempty]
  · intro u db hempty
    simp [verGruposCreados, hempty]
  · intro u db hempty
    simp [verGruposUsuario, hempty]
  · intro u db hne h10 hempty
    have h10b : ¬ 10 < (db.grupoPersona.filter (fun p => p.2.id_usuario == u)).length := by
      simpa using h10
    simp [verGruposUsuario, isEmpty_false_of_ne_nil hne, h10b]
    constructor <;> split <;> rfl
  · intro idg d db h1 h2 hmiss
    simp [editarGravedad, strTruthy, h1, h2, hmiss]
  · intro idg b db h1 hmiss
    simp [cambiarEstadoGravedad, strTruthy, h1, hmiss]
  · intro db hempty
    simp [verGravedades, hempty]
  · intro db hempty
    simp [listarGravedades, hempty]
  · intro db hempty
    simp [obtenerAlertas, strTruthy, hempty]
  · intro s db hne hempty
    simp [obtenerAlertas, strTruthy, hne, hempty]
  · intro s db hne hempty
    simp [obtenerAlertasUsuario, strTruthy, hne, hempty]
  · intro db inicio fin hempty
    simp [listarAlertasHoy, hempty]
  · intro req db newId ida hval hsome hmiss
    have h' := hval
    simp only [Bool.and_eq_true] at h'
    obtain ⟨⟨h1, h2⟩, h3⟩ := h'
    rw [hsome] at h1
    unfold derivarAlerta
    simp [hsome, h1, h2, h3, hmiss]
  · intro db hempty
    simp [alertasDerivadasMetrica, hempty]
  · intro db hempty
    simp [alertasPorComuna, hempty]
  · intro db inicio fin hempty
    simp [alertasMesActualPorComuna, hempty]
  · intro db mk hempty
    simp [alertasPorMes, hempty]
  · intro u db hne hmiss
    simp [getUser, strTruthy, hne, hmiss]

/-- Witness for C7 at concrete not-found requests, one per conjunct. -/
theorem c7_not_found_no_write_witness :
    (editarClave ⟨some "k9", none, none, some "w"⟩ DB.empty none).status = 404 ∧
    (eliminarClave (some "k9") DB.empty none).status = 404 ∧
    (obtenerClavesUsuario (some "u9") DB.empty none).status = 404 ∧
    (eliminarMensaje (some "m9") DB.empty none).status = 404 ∧
    (editarMensaje (some "m9") (some "texto") DB.empty none).status = 404 ∧
    (obtenerMensajes (some "u9") DB.empty none).status = 404 ∧
    (borrarContacto (some "c9") DB.empty none).status = 404 ∧
    (borrarContactoUsuario (some "c9") DB.empty none).status = 200 ∧
    (editarContacto ⟨some "A", some "B", some "9", some "a@x", some "c9"⟩
      DB.empty none).status = 404 ∧
    (editarContactoUsuario ⟨some "A", some "B", some "9", some "a@x", some "c9"⟩
      DB.empty none).status = 200 ∧
    (verContactos (some "u9") DB.empty none).status = 404 ∧
    (verContactosUsuario (some "u9") DB.empty none).status = 200 ∧
    (eliminarGrupo (some "g9") DB.empty none).status = 200 ∧
    (editarGrupo ⟨some "g9", some "N", some "#111", some "d", none⟩
      DB.empty "b" 0 none).status = 200 ∧
    (grupoCompleto (some "g9") DB.empty none).status = 200 ∧
    (grupoCompleto (some "g1") dbGrupoSel none).status = 200 ∧
    (verGruposCreados (some "u9") DB.empty none).status = 200 ∧
    (verGruposUsuario (some "u9") DB.empty none).status = 200 ∧
    (verGruposUsuario (some "u7") dbMiembros none).status = 200 ∧
    (editarGravedad (some "gv9") (some "Robo") DB.empty none).status = 404 ∧
    (cambiarEstadoGravedad (some "gv9") (some false) DB.empty none).status = 404 ∧
    (verGravedades DB.empty none).status = 404 ∧
    (listarGravedades DB.empty none).status = 404 ∧
    (obtenerAlertas none DB.empty none).status = 404 ∧
    (obtenerAlertas (some "a9") DB.empty none).status = 404 ∧
    (obtenerAlertasUsuario (some "a9") DB.empty none).status = 200 ∧
    (listarAlertasHoy DB.empty 0 10 none).status = 404 ∧
    (derivarAlerta ⟨some "a9", some "dep1", some "f1"⟩
      DB.empty "ad1" none).status = 404 ∧
    (alertasDerivadasMetrica DB.empty none).status = 200 ∧
    (alertasPorComuna DB.empty none).status = 200 ∧
    (alertasMesActualPorComuna DB.empty 0 10 none).status = 200 ∧
    (alertasPorMes DB.empty (fun _ => "2024-09") none).status = 200 ∧
    (getUser (some "u9") DB.empty none).status = 200 := by
  obtain ⟨h1, h2, h3, h4, h5, h6, h7, h8, h9, h10, h11, h12, h13, h14, h15,
    h16, h17, h18, h19, h20, h21, h22, h23, h24, h25, h26, h27, h28, h29,
    h30, h31, h32, h33⟩ := c7_not_found_no_write
  exact ⟨(h1 _ DB.empty "k9" rfl (by decide) rfl).1,
    (h2 "k9" DB.empty (by decide) rfl).1,
    (h3 "u9" DB.empty (by decide) rfl).1,
    (h4 "m9" DB.empty (by decide) rfl).1,
    (h5 "m9" "texto" DB.empty (by decide) (by decide) rfl).1,
    (h6 "u9" DB.empty (by decide) rfl).1,
    (h7 "c9" DB.empty (by decide) rfl).1,
    (h8 "c9" DB.empty (by decide) rfl).1,
    (h9 _ DB.empty "c9" (by decide) rfl (by decide) rfl).1,
    (h10 _ DB.empty "c9" (by decide) rfl (by decide) rfl).1,
    (h11 "u9" DB.empty (by decide) rfl).1,
    (h12 "u9" DB.empty (by decide) rfl).1,
    (h13 "g9" DB.empty (by decide) rfl).1,
    (h14 _ DB.empty "b" 0 "g9" (by decide) rfl rfl).1,
    (h15 "g9" DB.empty (by decide) rfl).1,
    (h16 "g1" dbGrupoSel
      ⟨"g1", "Amigas", "#ff5733", some "salidas", some "urlvieja", true, "u1"⟩
      (by decide) (by decide) (by decide)).1,
    (h17 "u9" DB.empty rfl).1,
    (h18 "u9" DB.empty rfl).1,
    (h19 "u7" dbMiembros (by decide) (by decide) (by decide)).1,
    (h20 "gv9" "Robo" DB.empty (by decide) (by decide) rfl).1,
    (h21 "gv9" false DB.empty (by decide) rfl).1,
    (h22 DB.empty rfl).1,
    (h23 DB.empty rfl).1,
    (h24 DB.empty rfl).1,
    (h25 "a9" DB.empty (by decide) rfl).1,
    (h26 "a9" DB.empty (by decide) rfl).1,
    (h27 DB.empty 0 10 rfl).1,
    (h28 _ DB.empty "ad1" "a9" (by decide) rfl rfl).1,
    (h29 DB.empty rfl).1,
    (h30 DB.empty rfl).1,
    (h31 DB.empty 0 10 rfl).1,
    (h32 DB.empty (fun _ => "2024-09") rfl).1,
    (h33 "u9" DB.empty (by decide) rfl).1⟩

/-! ## C8: clave reassignment in DELETE /eliminar-mensaje -/

/-- C8: DELETE eliminar-mensaje refuses with 400 and leaves the store
unchanged when the targeted message is the only MENSAJE of its person;
otherwise the message is deleted, every CLAVE that referenced it is
redirected (with its other fields unchanged) to another existing MENSAJE
of the same person, no clave references the deleted message afterwards,
and every person who had a message still has one. -/
theorem c8_eliminarMensaje_reassign
    (mid : String) (db : DB) (hmid : mid ≠ "")
    (hnd : db.mensaje.Pairwise (fun a b => a.1 ≠ b.1))
    (md : Mensaje) (hfound : lookupDoc db.mensaje mid = some md) :
    ((db.mensaje.filter (fun p => p.2.id_persona == md.id_persona && p.1 != mid)) = [] →
      (eliminarMensaje (some mid) db none).status = 400 ∧
      (eliminarMensaje (some mid) db none).db = db) ∧
    ((db.mensaje.filter (fun p => p.2.id_persona == md.id_persona && p.1 != mid)) ≠ [] →
      (eliminarMensaje (some mid) db none).status = 200 ∧
      (∀ p ∈ (eliminarMensaje (some mid) db none).db.mensaje, p.1 ≠ mid) ∧
      (∀ p ∈ (eliminarMensaje (some mid) db none).db.clave, p.2.id_mensaje ≠ mid) ∧
      (∀ p ∈ db.clave, p.2.id_mensaje ≠ mid →
        p ∈ (eliminarMensaje (some mid) db none).db.clave) ∧
      (∀ p ∈ db.clave, p.2.id_mensaje = mid →
        ∃ c2, (p.1, c2) ∈ (eliminarMensaje (some mid) db none).db.clave ∧
          c2.id_clave = p.2.id_clave ∧ c2.palabra = p.2.palabra ∧
          c2.id_usuario = p.2.id_usuario ∧ c2.id_gravedad = p.2.id_gravedad ∧
          ∃ m2, (c2.id_mensaje, m2) ∈ (eliminarMensaje (some mid) db none).db.mensaje ∧
            m2.id_persona = md.id_persona) ∧
      (∀ pers : String, (∃ p ∈ db.mensaje, p.2.id_persona = pers) →
        ∃ p ∈ (eliminarMensaje (some mid) db none).db.mensaje, p.2.id_persona = pers)) := by
  constructor
  · intro hempty
    simp [eliminarMensaje, validDocPath, hmid, hfound, hempty]
  · intro hne
    cases hhead : (db.mensaje.filter
        (fun p => p.2.id_persona == md.id_persona && p.1 != mid)).head? with
    | none => exact absurd (List.head?_eq_none_iff.mp hhead) hne
    | some repl =>
      have hreplmem : repl ∈ db.mensaje.filter
          (fun p => p.2.id_persona == md.id_persona && p.1 != mid) :=
        List.mem_of_mem_head? (by rw [hhead]; rfl)
      rcases List.mem_filter.mp hreplmem with ⟨hreplDb, hreplCond⟩
      have hreplPers : repl.2.id_persona = md.id_persona := by
        have := hreplCond
        simp [Bool.and_eq_true] at this
        exact this.1
      have hreplNe : repl.1 ≠ mid := by
        have := hreplCond
        simp [Bool.and_eq_true] at this
        exact this.2
      have hrun : eliminarMensaje (some mid) db none =
          { status := 200
            message := "Mensaje eliminado exitosamente y claves reasignadas a otro mensaje del usuario."
            errBody := .absent
            db := { db with
                      clave := db.clave.map (fun (p : String × Clave) =>
                        if p.2.id_mensaje == mid then
                          (p.1, { p.2 with id_mensaje := repl.1 })
                        else p)
                      mensaje := deleteDoc db.mensaje mid } } := by
        simp [eliminarMensaje, validDocPath, hmid, hfound, hhead, deleteDoc]
      rw [hrun]
      refine ⟨rfl, ?_, ?_, ?_, ?_, ?_⟩
      · intro p hp
        rcases List.mem_filter.mp hp with ⟨_, hcond⟩
        simpa using hcond
      · intro p hp
        rcases List.mem_map.mp hp with ⟨q, hq, hform⟩
        by_cases hqm : q.2.id_mensaje = mid
        · rw [← hform]
          simp [hqm, hreplNe]
        · rw [← hform]
          simp [hqm]
      · intro p hp hpne
        exact List.mem_map.mpr ⟨p, hp, by simp [hpne]⟩
      · intro p hp hpeq
        refine ⟨{ p.2 with id_mensaje := repl.1 }, ?_, rfl, rfl, rfl, rfl, repl.2, ?_, hreplPers⟩
        · exact List.mem_map.mpr ⟨p, hp, by simp [hpeq]⟩
        · simp only
          exact List.mem_filter.mpr ⟨hreplDb, by simp [hreplNe]⟩
      · intro pers hpers
        rcases hpers with ⟨p, hp, hppers⟩
        by_cases hpm : p.1 = mid
        · have hpmem : (mid, p.2) ∈ db.mensaje := by
            rw [← hpm]
            exact hp
          have hpd : p.2 = md := lookupDoc_unique hnd hpmem hfound
          refine ⟨repl, List.mem_filter.mpr ⟨hreplDb, by simp [hreplNe]⟩, ?_⟩
          rw [hreplPers, ← hpd, hppers]
        · exact ⟨p, List.mem_filter.mpr ⟨hp, by simp [hpm]⟩, hppers⟩

/-- Witness for C8 on the fixture where person u1 owns m1 and m2 and two
claves reference them: deleting m1 succeeds and reassigns. -/
theorem c8_eliminarMensaje_reassign_witness :
    (dbMensajes.mensaje.filter
      (fun p => p.2.id_persona == "u1" && p.1 != "m1")) ≠ [] ∧
    (eliminarMensaje (some "m1") dbMensajes none).status = 200 ∧
    (∀ p ∈ (eliminarMensaje (some "m1") dbMensajes none).db.mensaje, p.1 ≠ "m1") ∧
    (∀ p ∈ (eliminarMensaje (some "m1") dbMensajes none).db.clave,
      p.2.id_mensaje ≠ "m1") ∧
    (∀ pers : String, (∃ p ∈ dbMensajes.mensaje, p.2.id_persona = pers) →
      ∃ p ∈ (eliminarMensaje (some "m1") dbMensajes none).db.mensaje,
        p.2.id_persona = pers) := by
  have h := (c8_eliminarMensaje_reassign "m1" dbMensajes (by decide)
    (by decide) ⟨"m1", "u1", "hola"⟩ (by decide)).2 (by decide)
  refine ⟨by decide, h.1, h.2.1, h.2.2.1, ?_⟩
  intro pers hpers
  exact h.2.2.2.2.2 pers hpers

/-! ## C9: the image of PUT /editar-grupo is not stored -/

/-- C9: PUT editar-grupo with an image uploads it and echoes the new
imagen_url in the response, but the stored GRUPO document is updated
only with nombre_grupo, color_hex and descripcion — its imagen_url in
the database stays unchanged, so whenever the new URL differs from the
stored one the response and the store disagree about imagen_url. -/
theorem c9_editarGrupo_image_not_stored
    (req : EditarGrupoReq) (db : DB) (bucket : String) (now : Nat)
    (g n c d : String) (f : FileUpload)
    (hg : req.id_grupo = some g) (hg2 : g ≠ "")
    (hn : req.nombre_grupo = some n) (hn2 : n ≠ "")
    (hc : req.color_hex = some c) (hc2 : c ≠ "")
    (hd : req.descripcion = some d) (hd2 : d ≠ "")
    (hf : req.file = some f)
    (gOld : Grupo) (hfound : lookupDoc db.grupo g = some gOld) :
    (editarGrupo req db bucket now none).status = 200 ∧
    lookupDoc (editarGrupo req db bucket now none).db.grupo g =
      some { gOld with nombre_grupo := n, color_hex := c, descripcion := some d } ∧
    (editarGrupo req db bucket now none).grupoResp =
      some ⟨g, n, c, d, some (grupoImageUrl bucket g now (extnameOf f.originalname))⟩ ∧
    (∀ r gNew, (editarGrupo req db bucket now none).grupoResp = some r →
      lookupDoc (editarGrupo req db bucket now none).db.grupo g = some gNew →
      gNew.imagen_url = gOld.imagen_url ∧
      (r.imagen_url ≠ gOld.imagen_url → r.imagen_url ≠ gNew.imagen_url)) := by
  have hrun : editarGrupo req db bucket now none =
      { status := 200, message := "Grupo actualizado exitosamente."
        errBody := .absent
        db := { db with grupo := updateDoc db.grupo g (fun gr =>
                  { gr with nombre_grupo := n, color_hex := c, descripcion := some d }) }
        grupoResp := some ⟨g, n, c, d,
          some (grupoImageUrl bucket g now (extnameOf f.originalname))⟩ } := by
    simp [editarGrupo, strTruthy, hg, hg2, hn, hn2, hc, hc2, hd, hd2, hf, hfound]
  rw [hrun]
  have hlook : lookupDoc (updateDoc db.grupo g (fun gr =>
      { gr with nombre_grupo := n, color_hex := c, descripcion := some d })) g =
      some { gOld with nombre_grupo := n, color_hex := c, descripcion := some d } := by
    rw [lookupDoc_updateDoc_self, hfound]
    rfl
  refine ⟨rfl, hlook, rfl, ?_⟩
  intro r gNew hr hNew
  have hgg : gNew = { gOld with nombre_grupo := n, color_hex := c, descripcion := some d } := by
    rw [hlook] at hNew
    have := hNew
    simp only [Option.some.injEq] at this
    exact this.symm
  constructor
  · rw [hgg]
  · intro hdiff
    rw [hgg]
    exact hdiff

/-- Witness for C9 on the fixture group g1 whose stored imagen_url is
urlvieja: after the edit the store still holds urlvieja while the
response carries the freshly uploaded URL. -/
theorem c9_editarGrupo_image_not_stored_witness :
    (editarGrupo ⟨some "g1", some "Nuevas", some "#00ff00", some "otra", some ⟨"foto.png"⟩⟩
      dbGrupoSel "bucket1" 7 none).status = 200 ∧
    lookupDoc (editarGrupo ⟨some "g1", some "Nuevas", some "#00ff00", some "otra", some ⟨"foto.png"⟩⟩
      dbGrupoSel "bucket1" 7 none).db.grupo "g1" =
      some { (⟨"g1", "Amigas", "#ff5733", some "salidas", some "urlvieja", true, "u1"⟩ : Grupo) with
        nombre_grupo := "Nuevas", color_hex := "#00ff00", descripcion := some "otra" } ∧
    (editarGrupo ⟨some "g1", some "Nuevas", some "#00ff00", some "otra", some ⟨"foto.png"⟩⟩
      dbGrupoSel "bucket1" 7 none).grupoResp =
      some ⟨"g1", "Nuevas", "#00ff00", "otra",
        some (grupoImageUrl "bucket1" "g1" 7 (extnameOf "foto.png"))⟩ ∧
    (∀ r gNew, (editarGrupo ⟨some "g1", some "Nuevas", some "#00ff00", some "otra", some ⟨"foto.png"⟩⟩
        dbGrupoSel "bucket1" 7 none).grupoResp = some r →
      lookupDoc (editarGrupo ⟨some "g1", some "Nuevas", some "#00ff00", some "otra", some ⟨"foto.png"⟩⟩
        dbGrupoSel "bucket1" 7 none).db.grupo "g1" = some gNew →
      gNew.imagen_url = some "urlvieja" ∧
      (r.imagen_url ≠ some "urlvieja" → r.imagen_url ≠ gNew.imagen_url)) :=
  c9_editarGrupo_image_not_stored _ dbGrupoSel "bucket1" 7 "g1" "Nuevas" "#00ff00"
    "otra" ⟨"foto.png"⟩ rfl (by decide) rfl (by decide) rfl (by decide) rfl
    (by decide) rfl ⟨"g1", "Amigas", "#ff5733", some "salidas", some "urlvieja", true, "u1"⟩
    (by decide)

end WomenSecurity
